import Mathlib

/-!
Verification of the prisma-valibot-generator emission engine.

This file shallowly embeds the text-emission functions of the generator
(`src/utils/type-mapping.ts`, `src/builders/where-input.ts`,
`src/builders/where-unique.ts`, `src/builders/select-include.ts`,
`src/builders/orderby-input.ts`, `src/builders/create-args.ts`,
`src/builders/update-args.ts`, `src/builders/query-args.ts`,
`src/builders/enum-schema.ts` and the orchestration conditionals of
`src/lib/generate-schemas.ts`) as Lean functions over the DMMF-like data
model, and proves or refutes the specification claims about them.

Emitted template strings are represented exactly; interpolated templates
are written as `cat [lit, var, lit, ...]` (right-nested concatenation),
and JavaScript array pushes of generated lines are represented as Lean
lists of the same strings, joined with the same separators on return.
Literal braces of the emitted TypeScript text are written with the
escapes \x7b and \x7d, and apostrophes with \x27.
-/

namespace PVG

/-- Kinds of a DMMF field: `scalar`, `enum`, `object` (relation), or
`unsupported`. -/
inductive FieldKind where
  | scalar
  | enum
  | object
  | unsupported
deriving DecidableEq, Repr

/-- A DMMF field, restricted to the attributes the generator reads. -/
structure Field where
  name : String
  kind : FieldKind
  type : String
  isRequired : Bool
  isList : Bool
  isId : Bool := false
  isUnique : Bool := false
  hasDefaultValue : Bool := false
  relationName : Option String := none
  relationFromFields : Option (List String) := none
deriving DecidableEq, Repr

/-- A compound unique index of a model (`model.uniqueIndexes[i].fields`). -/
structure UniqueIndex where
  fields : List String
deriving DecidableEq, Repr

/-- A DMMF model: name, ordered field list, compound unique indexes. -/
structure Model where
  name : String
  fields : List Field
  uniqueIndexes : List UniqueIndex := []
deriving DecidableEq, Repr

/-- A DMMF enum: name and value labels. -/
structure DatamodelEnum where
  name : String
  values : List String
deriving DecidableEq, Repr

/-- Right-nested concatenation of string pieces; used to write the
interpolated template literals of the source as alternating literal and
variable pieces. -/
def cat : List String → String
  | [] => ""
  | x :: xs => x ++ cat xs

/-- JavaScript `Array.prototype.join(sep)`. -/
def joinJs (sep : String) : List String → String
  | [] => ""
  | [x] => x
  | x :: xs => x ++ sep ++ joinJs sep xs

/-- JavaScript `s.charAt(0).toUpperCase() + s.slice(1)`. -/
def capitalize (s : String) : String :=
  match s.data with
  | [] => ""
  | c :: cs => ⟨c.toUpper :: cs⟩

/-- Replace the first occurrence of `pat` (a nonempty pattern) in a
character list, as JavaScript `String.prototype.replace` with a string
pattern does. -/
def replaceFirstAux (pat rep : List Char) : List Char → List Char
  | [] => []
  | c :: cs =>
    if pat.isPrefixOf (c :: cs) then rep ++ (c :: cs).drop pat.length
    else c :: replaceFirstAux pat rep cs

/-- JavaScript `s.replace(pat, rep)` for a string pattern: replaces the
first occurrence only. -/
def replaceFirst (s pat rep : String) : String :=
  match pat.data with
  | [] => rep ++ s
  | p :: ps => ⟨replaceFirstAux (p :: ps) rep.data s.data⟩

/-- Suffix test on the character lists of two strings. -/
def strEndsWith (s suffix : String) : Bool :=
  suffix.data.isSuffixOf s.data

/-- Drop the last `n` characters of a string. -/
def strDropRight (s : String) (n : Nat) : String :=
  ⟨s.data.take (s.data.length - n)⟩

/-- Substring test: `sub` occurs contiguously in `s`. -/
def containsSubstr (s sub : String) : Bool :=
  go sub.data s.data
where
  /-- Walk the haystack, testing the pattern as a prefix at every
  position. -/
  go (pat : List Char) : List Char → Bool
    | [] => pat.isEmpty
    | c :: cs => pat.isPrefixOf (c :: cs) || go pat cs

/-! ### Type mapper (`src/utils/type-mapping.ts`) -/

/-- The `typeMap` lookup of `getBaseValibotType`, with its
`|| 'v.any()'` fallback for unknown type tags. -/
def getBaseValibotType (fieldType : String) : String :=
  if fieldType = "String" then "v.string()"
  else if fieldType = "Int" then "v.number()"
  else if fieldType = "BigInt" then "v.bigint()"
  else if fieldType = "Float" then "v.number()"
  else if fieldType = "Decimal" then "v.number()"
  else if fieldType = "Boolean" then "v.boolean()"
  else if fieldType = "DateTime" then
    "v.union([v.pipe(v.string(), v.isoTimestamp()), v.date()])"
  else if fieldType = "Json" then "v.any()"
  else if fieldType = "Bytes" then "v.instance(Uint8Array)"
  else "v.any()"

/-- `getValibotType` of `src/utils/type-mapping.ts`: the DateTime-list
special case distributes the dual representation over the list; all
other tags get uniform `v.array` wrapping. -/
def getValibotType (fieldType : String) (isList : Bool) : String :=
  if fieldType = "DateTime" ∧ isList = true then
    "v.union([v.array(v.pipe(v.string(), v.isoTimestamp())), v.array(v.date())])"
  else
    let baseType := getBaseValibotType fieldType
    if isList then "v.array(" ++ baseType ++ ")" else baseType

/-- `wrapOptional` of `src/utils/type-mapping.ts`. -/
def wrapOptional (schema : String) (isRequired : Bool) : String :=
  if isRequired then schema else "v.optional(" ++ schema ++ ")"

/-! ### WhereInput builder (`src/builders/where-input.ts`) -/

/-- `normalizeSchemaName`: the regex replace of `/Schema{2,}$/g` with
`Schema`, i.e. collapse a trailing run of two or more `Schema` suffixes
into one; implemented with a fuel bound. -/
def normalizeSchemaNameAux : Nat → String → String
  | 0, s => s
  | n + 1, s =>
    if strEndsWith s "SchemaSchema" then
      normalizeSchemaNameAux n (strDropRight s 6)
    else s

/-- `normalizeSchemaName` of `src/builders/where-input.ts`. -/
def normalizeSchemaName (s : String) : String :=
  normalizeSchemaNameAux s.data.length s

/-- The `typeFilterMap` of `getFilterSchemaName`, with its
`|| 'StringFilterSchema'` fallback. -/
def whereInputTypeFilterMap (t : String) : String :=
  if t = "String" then "StringFilterSchema"
  else if t = "Int" then "IntFilterSchema"
  else if t = "BigInt" then "BigIntFilterSchema"
  else if t = "Float" then "FloatFilterSchema"
  else if t = "Decimal" then "DecimalFilterSchema"
  else if t = "Boolean" then "BoolFilterSchema"
  else if t = "DateTime" then "DateTimeFilterSchema"
  else if t = "Json" then "JsonFilterSchema"
  else if t = "Bytes" then "BytesFilterSchema"
  else "StringFilterSchema"

/-- `getFilterSchemaName` of `src/builders/where-input.ts`. -/
def getFilterSchemaName (field : Field) : String :=
  if field.kind = .enum then
    if field.isList then field.type ++ "NullableListFilterSchema"
    else if !field.isRequired then field.type ++ "NullableFilterSchema"
    else field.type ++ "FilterSchema"
  else
    let filterName := whereInputTypeFilterMap field.type
    if field.isList then
      normalizeSchemaName (replaceFirst filterName "Filter" "ListFilter")
    else if !field.isRequired then
      normalizeSchemaName (replaceFirst filterName "Filter" "NullableFilter")
    else normalizeSchemaName filterName

/-- The `typeMap` of `getDirectValueSchema`, with its `|| 'v.any()'`
fallback. -/
def directValueTypeMap (t : String) : String :=
  if t = "String" then "v.string()"
  else if t = "Int" then "v.number()"
  else if t = "BigInt" then "v.bigint()"
  else if t = "Float" then "v.number()"
  else if t = "Decimal" then "v.number()"
  else if t = "Boolean" then "v.boolean()"
  else if t = "DateTime" then
    "v.union([v.pipe(v.string(), v.isoTimestamp()), v.date()])"
  else if t = "Json" then "v.any()"
  else if t = "Bytes" then "v.instance(Uint8Array)"
  else "v.any()"

/-- `getDirectValueSchema` of `src/builders/where-input.ts`. -/
def getDirectValueSchema (field : Field) : String :=
  if field.kind = .enum then
    let enumSchema := cat ["v.picklist(", field.type, "Enum)"]
    if field.isRequired then enumSchema else cat ["v.nullable(", enumSchema, ")"]
  else
    let baseSchema := directValueTypeMap field.type
    if field.isRequired then baseSchema else cat ["v.nullish(", baseSchema, ")"]

/-- The lines pushed onto `schemaFields` for one field in the loop of
`generateWhereInputSchema`; scalar/enum and list-relation fields push
one line, single relations push the multi-line XOR union, and
unsupported fields push nothing. -/
def whereInputFieldLines (field : Field) : List String :=
  match field.kind with
  | .scalar | .enum =>
    if field.isList then
      [cat ["  ", field.name, ": v.optional(v.lazy(() => ",
            getFilterSchemaName field, ")),"]]
    else
      [cat ["  ", field.name, ": v.optional(v.lazy(() => v.union([",
            getFilterSchemaName field, ", ", getDirectValueSchema field,
            "]))),"]]
  | .object =>
    if field.isList then
      [cat ["  ", field.name, ": v.optional(v.lazy(() => ", field.type,
            "ListRelationFilterSchema)),"]]
    else if field.isRequired then
      [cat ["  ", field.name, ": v.optional(v.lazy(() => v.union(["],
       "    v.strictObject(\x7b",
       cat ["      is: v.optional(", field.type, "WhereInputSchema),"],
       cat ["      isNot: v.optional(", field.type, "WhereInputSchema),"],
       "    \x7d),",
       cat ["    ", field.type, "WhereInputSchema"],
       "  ]))),"]
    else
      [cat ["  ", field.name, ": v.optional(v.lazy(() => v.union(["],
       "    v.null(),",
       "    v.strictObject(\x7b",
       cat ["      is: v.optional(v.nullable(", field.type,
            "WhereInputSchema)),"],
       cat ["      isNot: v.optional(v.nullable(", field.type,
            "WhereInputSchema)),"],
       "    \x7d),",
       cat ["    ", field.type, "WhereInputSchema"],
       "  ]))),"]
  | .unsupported => []

/-- The three logical-operator lines pushed first by
`generateWhereInputSchema`; the array arm precedes the object arm in
the AND and NOT unions. -/
def whereInputLogicalLines (schemaName : String) : List String :=
  [cat ["  AND: v.optional(v.lazy(() => v.union([v.array(", schemaName,
        "), ", schemaName, "]))),"],
   cat ["  OR: v.optional(v.lazy(() => v.array(", schemaName, "))),"],
   cat ["  NOT: v.optional(v.lazy(() => v.union([v.array(", schemaName,
        "), ", schemaName, "]))),"]]

/-- `generateWhereInputSchema` of `src/builders/where-input.ts`. -/
def generateWhereInputSchema (model : Model) : String :=
  let schemaName := model.name ++ "WhereInputSchema"
  let schemaFields :=
    whereInputLogicalLines schemaName ++
    (model.fields.map whereInputFieldLines).flatten
  cat ["export const ", model.name,
       "WhereInputSchema: v.GenericSchema<Prisma.", model.name,
       "WhereInput> = v.lazy(() => v.object(\x7b\n",
       joinJs "\n" schemaFields, "\n\x7d));\n"]

/-- `generateListRelationFilterSchema` of
`src/builders/where-input.ts`. -/
def generateListRelationFilterSchema (model : Model) : String :=
  cat ["export const ", model.name,
       "ListRelationFilterSchema: v.GenericSchema<Prisma.", model.name,
       "ListRelationFilter> = v.object(\x7b\n  every: v.optional(v.lazy(() => ",
       model.name, "WhereInputSchema)),\n  some: v.optional(v.lazy(() => ",
       model.name, "WhereInputSchema)),\n  none: v.optional(v.lazy(() => ",
       model.name, "WhereInputSchema)),\n\x7d);\n"]

/-- The `isTypeUsed` helper of `generateScalarFilterSchemas`:
whether `type` is used by some scalar field as required
(default flags), nullable (`checkNullable`), or list (`checkList`). -/
def isTypeUsed (models : List Model) (type : String)
    (checkNullable : Bool) (checkList : Bool) : Bool :=
  models.any fun model => model.fields.any fun field =>
    field.kind = .scalar && field.type == type &&
      (if checkList then field.isList
       else if checkNullable then !field.isRequired
       else field.isRequired)

/-- The single template literal pushed onto `parts` by
`generateScalarFilterSchemas` when its String-usage condition holds:
local type definitions and filter schemas for every scalar type. -/
def scalarFilterBlock : String :=
  "\n// Type definitions for full type safety\ntype StringFilter = \x7b\n  equals?: string;\n  in?: string[];\n  notIn?: string[];\n  lt?: string;\n  lte?: string;\n  gt?: string;\n  gte?: string;\n  contains?: string;\n  startsWith?: string;\n  endsWith?: string;\n  mode?: v.InferInput<typeof QueryModeSchema>;\n  not?: string | StringFilter;\n\x7d;\n\ntype StringNullableFilter = \x7b\n  equals?: string | null;\n  in?: string[] | null;\n  notIn?: string[] | null;\n  lt?: string;\n  lte?: string;\n  gt?: string;\n  gte?: string;\n  contains?: string;\n  startsWith?: string;\n  endsWith?: string;\n  mode?: v.InferInput<typeof QueryModeSchema>;\n  not?: string | null | StringNullableFilter;\n\x7d;\n\ntype IntFilter = \x7b\n  equals?: number;\n  in?: number[];\n  notIn?: number[];\n  lt?: number;\n  lte?: number;\n  gt?: number;\n  gte?: number;\n  not?: number | IntFilter;\n\x7d;\n\ntype IntNullableFilter = \x7b\n  equals?: number | null;\n  in?: number[] | null;\n  notIn?: number[] | null;\n  lt?: number;\n  lte?: number;\n  gt?: number;\n  gte?: number;\n  not?: number | null | IntNullableFilter;\n\x7d;\n\ntype FloatFilter = \x7b\n  equals?: number;\n  in?: number[];\n  notIn?: number[];\n  lt?: number;\n  lte?: number;\n  gt?: number;\n  gte?: number;\n  not?: number | FloatFilter;\n\x7d;\n\ntype FloatNullableFilter = \x7b\n  equals?: number | null;\n  in?: number[] | null;\n  notIn?: number[] | null;\n  lt?: number;\n  lte?: number;\n  gt?: number;\n  gte?: number;\n  not?: number | null | FloatNullableFilter;\n\x7d;\n\ntype BigIntFilter = \x7b\n  equals?: bigint;\n  in?: bigint[];\n  notIn?: bigint[];\n  lt?: bigint;\n  lte?: bigint;\n  gt?: bigint;\n  gte?: bigint;\n  not?: bigint | BigIntFilter;\n\x7d;\n\ntype BigIntNullableFilter = \x7b\n  equals?: bigint | null;\n  in?: bigint[] | null;\n  notIn?: bigint[] | null;\n  lt?: bigint;\n  lte?: bigint;\n  gt?: bigint;\n  gte?: bigint;\n  not?: bigint | null | BigIntNullableFilter;\n\x7d;\n\ntype BoolFilter = \x7b\n  equals?: boolean;\n  not?: boolean | BoolFilter;\n\x7d;\n\ntype BoolNullableFilter = \x7b\n  equals?: boolean | null;\n  not?: boolean | null | BoolNullableFilter;\n\x7d;\n\ntype DateTimeFilter = \x7b\n  equals?: string;\n  in?: string[];\n  notIn?: string[];\n  lt?: string;\n  lte?: string;\n  gt?: string;\n  gte?: string;\n  not?: string | DateTimeFilter;\n\x7d;\n\ntype DateTimeNullableFilter = \x7b\n  equals?: string | null;\n  in?: string[] | null;\n  notIn?: string[] | null;\n  lt?: string;\n  lte?: string;\n  gt?: string;\n  gte?: string;\n  not?: string | null | DateTimeNullableFilter;\n\x7d;\n\ntype JsonFilter = \x7b\n  equals?: any;\n  not?: any;\n\x7d;\n\ntype JsonNullableFilter = \x7b\n  equals?: any;\n  not?: any;\n\x7d;\n\ntype BytesFilter = \x7b\n  equals?: Uint8Array<ArrayBuffer>;\n  in?: Uint8Array<ArrayBuffer>[];\n  notIn?: Uint8Array<ArrayBuffer>[];\n  not?: Uint8Array<ArrayBuffer> | BytesFilter;\n\x7d;\n\ntype BytesNullableFilter = \x7b\n  equals?: Uint8Array<ArrayBuffer> | null;\n  in?: Uint8Array<ArrayBuffer>[] | null;\n  notIn?: Uint8Array<ArrayBuffer>[] | null;\n  not?: Uint8Array<ArrayBuffer> | null | BytesNullableFilter;\n\x7d;\n\ntype StringListFilter = \x7b\n  equals?: string[];\n  has?: string;\n  hasSome?: string[];\n  hasEvery?: string[];\n  isEmpty?: boolean;\n\x7d;\n\ntype IntListFilter = \x7b\n  equals?: number[];\n  has?: number;\n  hasSome?: number[];\n  hasEvery?: number[];\n  isEmpty?: boolean;\n\x7d;\n\ntype FloatListFilter = \x7b\n  equals?: number[];\n  has?: number;\n  hasSome?: number[];\n  hasEvery?: number[];\n  isEmpty?: boolean;\n\x7d;\n\ntype BigIntListFilter = \x7b\n  equals?: bigint[];\n  has?: bigint;\n  hasSome?: bigint[];\n  hasEvery?: bigint[];\n  isEmpty?: boolean;\n\x7d;\n\ntype BoolListFilter = \x7b\n  equals?: boolean[];\n  has?: boolean;\n  hasSome?: boolean[];\n  hasEvery?: boolean[];\n  isEmpty?: boolean;\n\x7d;\n\ntype DateTimeListFilter = \x7b\n  equals?: string[];\n  has?: string;\n  hasSome?: string[];\n  hasEvery?: string[];\n  isEmpty?: boolean;\n\x7d;\n\ntype BytesListFilter = \x7b\n  equals?: Uint8Array<ArrayBuffer>[];\n  has?: Uint8Array<ArrayBuffer>;\n  hasSome?: Uint8Array<ArrayBuffer>[];\n  hasEvery?: Uint8Array<ArrayBuffer>[];\n  isEmpty?: boolean;\n\x7d;\n\ntype JsonListFilter = \x7b\n  equals?: any[];\n  has?: any;\n  hasSome?: any[];\n  hasEvery?: any[];\n  isEmpty?: boolean;\n\x7d;\n\ntype DecimalListFilter = \x7b\n  equals?: number[];\n  has?: number;\n  hasSome?: number[];\n  hasEvery?: number[];\n  isEmpty?: boolean;\n\x7d;\n\n// String filters\nexport const StringFilterSchema: v.GenericSchema<StringFilter> = v.lazy(() =>\n  v.object(\x7b\n    equals: v.optional(v.string()),\n    in: v.optional(v.array(v.string())),\n    notIn: v.optional(v.array(v.string())),\n    lt: v.optional(v.string()),\n    lte: v.optional(v.string()),\n    gt: v.optional(v.string()),\n    gte: v.optional(v.string()),\n    contains: v.optional(v.string()),\n    startsWith: v.optional(v.string()),\n    endsWith: v.optional(v.string()),\n    mode: v.optional(QueryModeSchema),\n    not: v.optional(\n      v.lazy(() => v.union([v.string(), StringFilterSchema]))\n    ),\n  \x7d)\n);\n\nexport const StringNullableFilterSchema: v.GenericSchema<StringNullableFilter> = v.lazy(() =>\n  v.object(\x7b\n    equals: v.optional(v.nullable(v.string())),\n    in: v.optional(v.nullable(v.array(v.string()))),\n    notIn: v.optional(v.nullable(v.array(v.string()))),\n    lt: v.optional(v.string()),\n    lte: v.optional(v.string()),\n    gt: v.optional(v.string()),\n    gte: v.optional(v.string()),\n    contains: v.optional(v.string()),\n    startsWith: v.optional(v.string()),\n    endsWith: v.optional(v.string()),\n    mode: v.optional(QueryModeSchema),\n    not: v.optional(\n      v.lazy(() => v.union([v.nullable(v.string()), StringNullableFilterSchema]))\n    ),\n  \x7d)\n);\n\n// Number filters\nexport const IntFilterSchema: v.GenericSchema<IntFilter> = v.lazy(() =>\n  v.object(\x7b\n    equals: v.optional(v.number()),\n    in: v.optional(v.array(v.number())),\n    notIn: v.optional(v.array(v.number())),\n    lt: v.optional(v.number()),\n    lte: v.optional(v.number()),\n    gt: v.optional(v.number()),\n    gte: v.optional(v.number()),\n    not: v.optional(\n      v.lazy(() => v.union([v.number(), IntFilterSchema]))\n    ),\n  \x7d)\n);\n\nexport const IntNullableFilterSchema: v.GenericSchema<IntNullableFilter> = v.lazy(() =>\n  v.object(\x7b\n    equals: v.optional(v.nullable(v.number())),\n    in: v.optional(v.nullable(v.array(v.number()))),\n    notIn: v.optional(v.nullable(v.array(v.number()))),\n    lt: v.optional(v.number()),\n    lte: v.optional(v.number()),\n    gt: v.optional(v.number()),\n    gte: v.optional(v.number()),\n    not: v.optional(\n      v.lazy(() => v.union([v.nullable(v.number()), IntNullableFilterSchema]))\n    ),\n  \x7d)\n);\n\nexport const FloatFilterSchema: v.GenericSchema<FloatFilter> = v.lazy(() =>\n  v.object(\x7b\n    equals: v.optional(v.number()),\n    in: v.optional(v.array(v.number())),\n    notIn: v.optional(v.array(v.number())),\n    lt: v.optional(v.number()),\n    lte: v.optional(v.number()),\n    gt: v.optional(v.number()),\n    gte: v.optional(v.number()),\n    not: v.optional(\n      v.lazy(() => v.union([v.number(), FloatFilterSchema]))\n    ),\n  \x7d)\n);\n\nexport const FloatNullableFilterSchema: v.GenericSchema<FloatNullableFilter> = v.lazy(() =>\n  v.object(\x7b\n    equals: v.optional(v.nullable(v.number())),\n    in: v.optional(v.nullable(v.array(v.number()))),\n    notIn: v.optional(v.nullable(v.array(v.number()))),\n    lt: v.optional(v.number()),\n    lte: v.optional(v.number()),\n    gt: v.optional(v.number()),\n    gte: v.optional(v.number()),\n    not: v.optional(\n      v.lazy(() => v.union([v.nullable(v.number()), FloatNullableFilterSchema]))\n    ),\n  \x7d)\n);\n\nexport const DecimalFilterSchema = FloatFilterSchema;\nexport const DecimalNullableFilterSchema = FloatNullableFilterSchema;\n\n// BigInt filters\nexport const BigIntFilterSchema: v.GenericSchema<BigIntFilter> = v.lazy(() =>\n  v.object(\x7b\n    equals: v.optional(v.bigint()),\n    in: v.optional(v.array(v.bigint())),\n    notIn: v.optional(v.array(v.bigint())),\n    lt: v.optional(v.bigint()),\n    lte: v.optional(v.bigint()),\n    gt: v.optional(v.bigint()),\n    gte: v.optional(v.bigint()),\n    not: v.optional(\n      v.lazy(() => v.union([v.bigint(), BigIntFilterSchema]))\n    ),\n  \x7d)\n);\n\nexport const BigIntNullableFilterSchema: v.GenericSchema<BigIntNullableFilter> = v.lazy(() =>\n  v.object(\x7b\n    equals: v.optional(v.nullable(v.bigint())),\n    in: v.optional(v.nullable(v.array(v.bigint()))),\n    notIn: v.optional(v.nullable(v.array(v.bigint()))),\n    lt: v.optional(v.bigint()),\n    lte: v.optional(v.bigint()),\n    gt: v.optional(v.bigint()),\n    gte: v.optional(v.bigint()),\n    not: v.optional(\n      v.lazy(() => v.union([v.nullable(v.bigint()), BigIntNullableFilterSchema]))\n    ),\n  \x7d)\n);\n\n// Boolean filters\nexport const BoolFilterSchema: v.GenericSchema<BoolFilter> = v.lazy(() =>\n  v.object(\x7b\n    equals: v.optional(v.boolean()),\n    not: v.optional(\n      v.lazy(() => v.union([v.boolean(), BoolFilterSchema]))\n    ),\n  \x7d)\n);\n\nexport const BoolNullableFilterSchema: v.GenericSchema<BoolNullableFilter> = v.lazy(() =>\n  v.object(\x7b\n    equals: v.optional(v.nullable(v.boolean())),\n    not: v.optional(\n      v.lazy(() => v.union([v.nullable(v.boolean()), BoolNullableFilterSchema]))\n    ),\n  \x7d)\n);\n\n// DateTime filters\nexport const DateTimeFilterSchema: v.GenericSchema<DateTimeFilter> = v.lazy(() =>\n  v.object(\x7b\n    equals: v.optional(v.pipe(v.string(), v.isoTimestamp())),\n    in: v.optional(v.array(v.pipe(v.string(), v.isoTimestamp()))),\n    notIn: v.optional(v.array(v.pipe(v.string(), v.isoTimestamp()))),\n    lt: v.optional(v.pipe(v.string(), v.isoTimestamp())),\n    lte: v.optional(v.pipe(v.string(), v.isoTimestamp())),\n    gt: v.optional(v.pipe(v.string(), v.isoTimestamp())),\n    gte: v.optional(v.pipe(v.string(), v.isoTimestamp())),\n    not: v.optional(\n      v.lazy(() => v.union([v.pipe(v.string(), v.isoTimestamp()), DateTimeFilterSchema]))\n    ),\n  \x7d)\n);\n\nexport const DateTimeNullableFilterSchema: v.GenericSchema<DateTimeNullableFilter> = v.lazy(() =>\n  v.object(\x7b\n    equals: v.optional(v.nullable(v.pipe(v.string(), v.isoTimestamp()))),\n    in: v.optional(v.nullable(v.array(v.pipe(v.string(), v.isoTimestamp())))),\n    notIn: v.optional(v.nullable(v.array(v.pipe(v.string(), v.isoTimestamp())))),\n    lt: v.optional(v.pipe(v.string(), v.isoTimestamp())),\n    lte: v.optional(v.pipe(v.string(), v.isoTimestamp())),\n    gt: v.optional(v.pipe(v.string(), v.isoTimestamp())),\n    gte: v.optional(v.pipe(v.string(), v.isoTimestamp())),\n    not: v.optional(\n      v.lazy(() => v.union([v.nullable(v.pipe(v.string(), v.isoTimestamp())), DateTimeNullableFilterSchema]))\n    ),\n  \x7d)\n);\n\n// Json filters\nexport const JsonFilterSchema: v.GenericSchema<JsonFilter> = v.lazy(() =>\n  v.object(\x7b\n    equals: v.optional(v.any()),\n    not: v.optional(v.any()),\n  \x7d)\n);\n\nexport const JsonNullableFilterSchema: v.GenericSchema<JsonNullableFilter> = v.lazy(() =>\n  v.object(\x7b\n    equals: v.optional(v.nullable(v.any())),\n    not: v.optional(v.nullable(v.any())),\n  \x7d)\n);\n\n// Bytes filters\nexport const BytesFilterSchema: v.GenericSchema<BytesFilter> = v.lazy(() =>\n  v.object(\x7b\n    equals: v.optional(v.instance(Uint8Array)),\n    in: v.optional(v.array(v.instance(Uint8Array))),\n    notIn: v.optional(v.array(v.instance(Uint8Array))),\n    not: v.optional(\n      v.lazy(() => v.union([v.instance(Uint8Array), BytesFilterSchema]))\n    ),\n  \x7d)\n);\n\nexport const BytesNullableFilterSchema: v.GenericSchema<BytesNullableFilter> = v.lazy(() =>\n  v.object(\x7b\n    equals: v.optional(v.nullable(v.instance(Uint8Array))),\n    in: v.optional(v.nullable(v.array(v.instance(Uint8Array)))),\n    notIn: v.optional(v.nullable(v.array(v.instance(Uint8Array)))),\n    not: v.optional(\n      v.lazy(() => v.union([v.nullable(v.instance(Uint8Array)), BytesNullableFilterSchema]))\n    ),\n  \x7d)\n);\n\n// List filters (for array fields)\nexport const StringListFilterSchema: v.GenericSchema<StringListFilter> = v.object(\x7b\n  equals: v.optional(v.array(v.string())),\n  has: v.optional(v.string()),\n  hasSome: v.optional(v.array(v.string())),\n  hasEvery: v.optional(v.array(v.string())),\n  isEmpty: v.optional(v.boolean()),\n\x7d);\n\nexport const IntListFilterSchema: v.GenericSchema<IntListFilter> = v.object(\x7b\n  equals: v.optional(v.array(v.number())),\n  has: v.optional(v.number()),\n  hasSome: v.optional(v.array(v.number())),\n  hasEvery: v.optional(v.array(v.number())),\n  isEmpty: v.optional(v.boolean()),\n\x7d);\n\nexport const FloatListFilterSchema: v.GenericSchema<FloatListFilter> = v.object(\x7b\n  equals: v.optional(v.array(v.number())),\n  has: v.optional(v.number()),\n  hasSome: v.optional(v.array(v.number())),\n  hasEvery: v.optional(v.array(v.number())),\n  isEmpty: v.optional(v.boolean()),\n\x7d);\n\nexport const BigIntListFilterSchema: v.GenericSchema<BigIntListFilter> = v.object(\x7b\n  equals: v.optional(v.array(v.bigint())),\n  has: v.optional(v.bigint()),\n  hasSome: v.optional(v.array(v.bigint())),\n  hasEvery: v.optional(v.array(v.bigint())),\n  isEmpty: v.optional(v.boolean()),\n\x7d);\n\nexport const BoolListFilterSchema: v.GenericSchema<BoolListFilter> = v.object(\x7b\n  equals: v.optional(v.array(v.boolean())),\n  has: v.optional(v.boolean()),\n  hasSome: v.optional(v.array(v.boolean())),\n  hasEvery: v.optional(v.array(v.boolean())),\n  isEmpty: v.optional(v.boolean()),\n\x7d);\n\nexport const DateTimeListFilterSchema: v.GenericSchema<DateTimeListFilter> = v.object(\x7b\n  equals: v.optional(v.array(v.pipe(v.string(), v.isoTimestamp()))),\n  has: v.optional(v.pipe(v.string(), v.isoTimestamp())),\n  hasSome: v.optional(v.array(v.pipe(v.string(), v.isoTimestamp()))),\n  hasEvery: v.optional(v.array(v.pipe(v.string(), v.isoTimestamp()))),\n  isEmpty: v.optional(v.boolean()),\n\x7d);\n\nexport const BytesListFilterSchema: v.GenericSchema<BytesListFilter> = v.object(\x7b\n  equals: v.optional(v.array(v.instance(Uint8Array))),\n  has: v.optional(v.instance(Uint8Array)),\n  hasSome: v.optional(v.array(v.instance(Uint8Array))),\n  hasEvery: v.optional(v.array(v.instance(Uint8Array))),\n  isEmpty: v.optional(v.boolean()),\n\x7d);\n\nexport const JsonListFilterSchema: v.GenericSchema<JsonListFilter> = v.object(\x7b\n  equals: v.optional(v.array(v.any())),\n  has: v.optional(v.any()),\n  hasSome: v.optional(v.array(v.any())),\n  hasEvery: v.optional(v.array(v.any())),\n  isEmpty: v.optional(v.boolean()),\n\x7d);\n\nexport const DecimalListFilterSchema: v.GenericSchema<DecimalListFilter> = v.object(\x7b\n  equals: v.optional(v.array(v.number())),\n  has: v.optional(v.number()),\n  hasSome: v.optional(v.array(v.number())),\n  hasEvery: v.optional(v.array(v.number())),\n  isEmpty: v.optional(v.boolean()),\n\x7d);\n\n// ========== WithAggregates Filters ==========\n// Used in \"having\" clause of GroupBy queries\n// Reuses existing filter schemas for aggregate fields (_count, _min, _max, _sum, _avg)\n\n// Type definitions for WithAggregates filters (used for type annotations to avoid circular inference)\ntype WithAggregatesFilter = Record<string, unknown>;\n\nexport const StringWithAggregatesFilterSchema: v.GenericSchema<WithAggregatesFilter> = v.lazy(() =>\n  v.object(\x7b\n    equals: v.optional(v.string()),\n    in: v.optional(v.array(v.string())),\n    notIn: v.optional(v.array(v.string())),\n    lt: v.optional(v.string()),\n    lte: v.optional(v.string()),\n    gt: v.optional(v.string()),\n    gte: v.optional(v.string()),\n    contains: v.optional(v.string()),\n    startsWith: v.optional(v.string()),\n    endsWith: v.optional(v.string()),\n    mode: v.optional(QueryModeSchema),\n    not: v.optional(v.lazy(() => v.union([v.string(), StringWithAggregatesFilterSchema]))),\n    _count: v.optional(IntFilterSchema),\n    _min: v.optional(StringFilterSchema),\n    _max: v.optional(StringFilterSchema),\n  \x7d)\n);\n\nexport const StringNullableWithAggregatesFilterSchema: v.GenericSchema<WithAggregatesFilter> = v.lazy(() =>\n  v.object(\x7b\n    equals: v.optional(v.nullable(v.string())),\n    in: v.optional(v.nullable(v.array(v.string()))),\n    notIn: v.optional(v.nullable(v.array(v.string()))),\n    lt: v.optional(v.string()),\n    lte: v.optional(v.string()),\n    gt: v.optional(v.string()),\n    gte: v.optional(v.string()),\n    contains: v.optional(v.string()),\n    startsWith: v.optional(v.string()),\n    endsWith: v.optional(v.string()),\n    mode: v.optional(QueryModeSchema),\n    not: v.optional(v.lazy(() => v.union([v.nullable(v.string()), StringNullableWithAggregatesFilterSchema]))),\n    _count: v.optional(IntFilterSchema),\n    _min: v.optional(StringNullableFilterSchema),\n    _max: v.optional(StringNullableFilterSchema),\n  \x7d)\n);\n\nexport const IntWithAggregatesFilterSchema: v.GenericSchema<WithAggregatesFilter> = v.lazy(() =>\n  v.object(\x7b\n    equals: v.optional(v.number()),\n    in: v.optional(v.array(v.number())),\n    notIn: v.optional(v.array(v.number())),\n    lt: v.optional(v.number()),\n    lte: v.optional(v.number()),\n    gt: v.optional(v.number()),\n    gte: v.optional(v.number()),\n    not: v.optional(v.lazy(() => v.union([v.number(), IntWithAggregatesFilterSchema]))),\n    _count: v.optional(IntFilterSchema),\n    _avg: v.optional(FloatFilterSchema),\n    _sum: v.optional(IntFilterSchema),\n    _min: v.optional(IntFilterSchema),\n    _max: v.optional(IntFilterSchema),\n  \x7d)\n);\n\nexport const IntNullableWithAggregatesFilterSchema: v.GenericSchema<WithAggregatesFilter> = v.lazy(() =>\n  v.object(\x7b\n    equals: v.optional(v.nullable(v.number())),\n    in: v.optional(v.nullable(v.array(v.number()))),\n    notIn: v.optional(v.nullable(v.array(v.number()))),\n    lt: v.optional(v.number()),\n    lte: v.optional(v.number()),\n    gt: v.optional(v.number()),\n    gte: v.optional(v.number()),\n    not: v.optional(v.lazy(() => v.union([v.nullable(v.number()), IntNullableWithAggregatesFilterSchema]))),\n    _count: v.optional(IntFilterSchema),\n    _avg: v.optional(FloatNullableFilterSchema),\n    _sum: v.optional(IntNullableFilterSchema),\n    _min: v.optional(IntNullableFilterSchema),\n    _max: v.optional(IntNullableFilterSchema),\n  \x7d)\n);\n\nexport const FloatWithAggregatesFilterSchema: v.GenericSchema<WithAggregatesFilter> = v.lazy(() =>\n  v.object(\x7b\n    equals: v.optional(v.number()),\n    in: v.optional(v.array(v.number())),\n    notIn: v.optional(v.array(v.number())),\n    lt: v.optional(v.number()),\n    lte: v.optional(v.number()),\n    gt: v.optional(v.number()),\n    gte: v.optional(v.number()),\n    not: v.optional(v.lazy(() => v.union([v.number(), FloatWithAggregatesFilterSchema]))),\n    _count: v.optional(IntFilterSchema),\n    _avg: v.optional(FloatFilterSchema),\n    _sum: v.optional(FloatFilterSchema),\n    _min: v.optional(FloatFilterSchema),\n    _max: v.optional(FloatFilterSchema),\n  \x7d)\n);\n\nexport const FloatNullableWithAggregatesFilterSchema: v.GenericSchema<WithAggregatesFilter> = v.lazy(() =>\n  v.object(\x7b\n    equals: v.optional(v.nullable(v.number())),\n    in: v.optional(v.nullable(v.array(v.number()))),\n    notIn: v.optional(v.nullable(v.array(v.number()))),\n    lt: v.optional(v.number()),\n    lte: v.optional(v.number()),\n    gt: v.optional(v.number()),\n    gte: v.optional(v.number()),\n    not: v.optional(v.lazy(() => v.union([v.nullable(v.number()), FloatNullableWithAggregatesFilterSchema]))),\n    _count: v.optional(IntFilterSchema),\n    _avg: v.optional(FloatNullableFilterSchema),\n    _sum: v.optional(FloatNullableFilterSchema),\n    _min: v.optional(FloatNullableFilterSchema),\n    _max: v.optional(FloatNullableFilterSchema),\n  \x7d)\n);\n\nexport const DecimalWithAggregatesFilterSchema = FloatWithAggregatesFilterSchema;\nexport const DecimalNullableWithAggregatesFilterSchema = FloatNullableWithAggregatesFilterSchema;\n\nexport const BigIntWithAggregatesFilterSchema: v.GenericSchema<WithAggregatesFilter> = v.lazy(() =>\n  v.object(\x7b\n    equals: v.optional(v.bigint()),\n    in: v.optional(v.array(v.bigint())),\n    notIn: v.optional(v.array(v.bigint())),\n    lt: v.optional(v.bigint()),\n    lte: v.optional(v.bigint()),\n    gt: v.optional(v.bigint()),\n    gte: v.optional(v.bigint()),\n    not: v.optional(v.lazy(() => v.union([v.bigint(), BigIntWithAggregatesFilterSchema]))),\n    _count: v.optional(IntFilterSchema),\n    _avg: v.optional(FloatFilterSchema),\n    _sum: v.optional(BigIntFilterSchema),\n    _min: v.optional(BigIntFilterSchema),\n    _max: v.optional(BigIntFilterSchema),\n  \x7d)\n);\n\nexport const BigIntNullableWithAggregatesFilterSchema: v.GenericSchema<WithAggregatesFilter> = v.lazy(() =>\n  v.object(\x7b\n    equals: v.optional(v.nullable(v.bigint())),\n    in: v.optional(v.nullable(v.array(v.bigint()))),\n    notIn: v.optional(v.nullable(v.array(v.bigint()))),\n    lt: v.optional(v.bigint()),\n    lte: v.optional(v.bigint()),\n    gt: v.optional(v.bigint()),\n    gte: v.optional(v.bigint()),\n    not: v.optional(v.lazy(() => v.union([v.nullable(v.bigint()), BigIntNullableWithAggregatesFilterSchema]))),\n    _count: v.optional(IntFilterSchema),\n    _avg: v.optional(FloatNullableFilterSchema),\n    _sum: v.optional(BigIntNullableFilterSchema),\n    _min: v.optional(BigIntNullableFilterSchema),\n    _max: v.optional(BigIntNullableFilterSchema),\n  \x7d)\n);\n\nexport const BoolWithAggregatesFilterSchema: v.GenericSchema<WithAggregatesFilter> = v.lazy(() =>\n  v.object(\x7b\n    equals: v.optional(v.boolean()),\n    not: v.optional(v.lazy(() => v.union([v.boolean(), BoolWithAggregatesFilterSchema]))),\n    _count: v.optional(IntFilterSchema),\n    _min: v.optional(BoolFilterSchema),\n    _max: v.optional(BoolFilterSchema),\n  \x7d)\n);\n\nexport const BoolNullableWithAggregatesFilterSchema: v.GenericSchema<WithAggregatesFilter> = v.lazy(() =>\n  v.object(\x7b\n    equals: v.optional(v.nullable(v.boolean())),\n    not: v.optional(v.lazy(() => v.union([v.nullable(v.boolean()), BoolNullableWithAggregatesFilterSchema]))),\n    _count: v.optional(IntFilterSchema),\n    _min: v.optional(BoolNullableFilterSchema),\n    _max: v.optional(BoolNullableFilterSchema),\n  \x7d)\n);\n\nexport const DateTimeWithAggregatesFilterSchema: v.GenericSchema<WithAggregatesFilter> = v.lazy(() =>\n  v.object(\x7b\n    equals: v.optional(v.pipe(v.string(), v.isoTimestamp())),\n    in: v.optional(v.array(v.pipe(v.string(), v.isoTimestamp()))),\n    notIn: v.optional(v.array(v.pipe(v.string(), v.isoTimestamp()))),\n    lt: v.optional(v.pipe(v.string(), v.isoTimestamp())),\n    lte: v.optional(v.pipe(v.string(), v.isoTimestamp())),\n    gt: v.optional(v.pipe(v.string(), v.isoTimestamp())),\n    gte: v.optional(v.pipe(v.string(), v.isoTimestamp())),\n    not: v.optional(v.lazy(() => v.union([v.pipe(v.string(), v.isoTimestamp()), DateTimeWithAggregatesFilterSchema]))),\n    _count: v.optional(IntFilterSchema),\n    _min: v.optional(DateTimeFilterSchema),\n    _max: v.optional(DateTimeFilterSchema),\n  \x7d)\n);\n\nexport const DateTimeNullableWithAggregatesFilterSchema: v.GenericSchema<WithAggregatesFilter> = v.lazy(() =>\n  v.object(\x7b\n    equals: v.optional(v.nullable(v.pipe(v.string(), v.isoTimestamp()))),\n    in: v.optional(v.nullable(v.array(v.pipe(v.string(), v.isoTimestamp())))),\n    notIn: v.optional(v.nullable(v.array(v.pipe(v.string(), v.isoTimestamp())))),\n    lt: v.optional(v.pipe(v.string(), v.isoTimestamp())),\n    lte: v.optional(v.pipe(v.string(), v.isoTimestamp())),\n    gt: v.optional(v.pipe(v.string(), v.isoTimestamp())),\n    gte: v.optional(v.pipe(v.string(), v.isoTimestamp())),\n    not: v.optional(v.lazy(() => v.union([v.nullable(v.pipe(v.string(), v.isoTimestamp())), DateTimeNullableWithAggregatesFilterSchema]))),\n    _count: v.optional(IntFilterSchema),\n    _min: v.optional(DateTimeNullableFilterSchema),\n    _max: v.optional(DateTimeNullableFilterSchema),\n  \x7d)\n);\n\nexport const BytesWithAggregatesFilterSchema: v.GenericSchema<WithAggregatesFilter> = v.lazy(() =>\n  v.object(\x7b\n    equals: v.optional(v.instance(Uint8Array)),\n    in: v.optional(v.array(v.instance(Uint8Array))),\n    notIn: v.optional(v.array(v.instance(Uint8Array))),\n    not: v.optional(v.lazy(() => v.union([v.instance(Uint8Array), BytesWithAggregatesFilterSchema]))),\n    _count: v.optional(IntFilterSchema),\n    _min: v.optional(BytesFilterSchema),\n    _max: v.optional(BytesFilterSchema),\n  \x7d)\n);\n\nexport const BytesNullableWithAggregatesFilterSchema: v.GenericSchema<WithAggregatesFilter> = v.lazy(() =>\n  v.object(\x7b\n    equals: v.optional(v.nullable(v.instance(Uint8Array))),\n    in: v.optional(v.nullable(v.array(v.instance(Uint8Array)))),\n    notIn: v.optional(v.nullable(v.array(v.instance(Uint8Array)))),\n    not: v.optional(v.lazy(() => v.union([v.nullable(v.instance(Uint8Array)), BytesNullableWithAggregatesFilterSchema]))),\n    _count: v.optional(IntFilterSchema),\n    _min: v.optional(BytesNullableFilterSchema),\n    _max: v.optional(BytesNullableFilterSchema),\n  \x7d)\n);\n\nexport const JsonWithAggregatesFilterSchema: v.GenericSchema<WithAggregatesFilter> = v.lazy(() =>\n  v.object(\x7b\n    equals: v.optional(v.any()),\n    not: v.optional(v.any()),\n    _count: v.optional(IntFilterSchema),\n    _min: v.optional(JsonFilterSchema),\n    _max: v.optional(JsonFilterSchema),\n  \x7d)\n);\n\nexport const JsonNullableWithAggregatesFilterSchema: v.GenericSchema<WithAggregatesFilter> = v.lazy(() =>\n  v.object(\x7b\n    equals: v.optional(v.nullable(v.any())),\n    not: v.optional(v.nullable(v.any())),\n    _count: v.optional(IntFilterSchema),\n    _min: v.optional(JsonNullableFilterSchema),\n    _max: v.optional(JsonNullableFilterSchema),\n  \x7d)\n);"

/-- `generateScalarFilterSchemas` of `src/builders/where-input.ts`:
the whole scalar-filter block is pushed only under the String-usage
test, and the parts are joined with the two-character sequence
backslash-n (the source writes `parts.join(\x27\\n\x27)` inside a
normal string, producing a literal backslash). -/
def generateScalarFilterSchemas (models : List Model) : String :=
  let parts : List String :=
    if isTypeUsed models "String" false false
       || isTypeUsed models "String" true false then
      [scalarFilterBlock]
    else []
  joinJs "\\n" parts

/-! ### Enum filter builder (`src/builders/enum-schema.ts`) -/

/-- The `hasRequiredUsage` test of `generateEnumFilterSchema`. -/
def enumHasRequiredUsage (enumDef : DatamodelEnum) (models : List Model) : Bool :=
  models.any fun model => model.fields.any fun field =>
    field.type == enumDef.name && field.kind = .enum && field.isRequired

/-- The `hasNullableUsage` test of `generateEnumFilterSchema`. -/
def enumHasNullableUsage (enumDef : DatamodelEnum) (models : List Model) : Bool :=
  models.any fun model => model.fields.any fun field =>
    field.type == enumDef.name && field.kind = .enum && !field.isRequired

/-- The `hasListUsage` test of `generateEnumFilterSchema`. -/
def enumHasListUsage (enumDef : DatamodelEnum) (models : List Model) : Bool :=
  models.any fun model => model.fields.any fun field =>
    field.type == enumDef.name && field.kind = .enum && field.isList

/-- The `EnumNameFilterSchema` block appended when the enum has a
required usage. -/
def enumRequiredFilterFragment (e : DatamodelEnum) : String :=
  cat ["export const ", e.name,
       "FilterSchema: v.GenericSchema<Prisma.Enum", e.name,
       "Filter> = v.lazy(() =>\n  v.object(\x7b\n    equals: v.optional(",
       e.name, "Schema),\n    in: v.optional(v.array(", e.name,
       "Schema)),\n    notIn: v.optional(v.array(", e.name,
       "Schema)),\n    not: v.optional(\n      v.lazy(() => v.union([",
       e.name, "Schema, ", e.name,
       "FilterSchema]))\n    ),\n  \x7d)\n);\n"]

/-- The `EnumNameNullableFilterSchema` block appended when the enum has
a nullable usage (note the leading newline of the source template). -/
def enumNullableFilterFragment (e : DatamodelEnum) : String :=
  cat ["\nexport const ", e.name,
       "NullableFilterSchema: v.GenericSchema<Prisma.Enum", e.name,
       "NullableFilter> = v.lazy(() =>\n  v.object(\x7b\n    equals: v.optional(v.nullable(",
       e.name, "Schema)),\n    in: v.optional(v.nullable(v.array(",
       e.name, "Schema))),\n    notIn: v.optional(v.nullable(v.array(",
       e.name,
       "Schema))),\n    not: v.optional(\n      v.lazy(() => v.union([v.nullable(",
       e.name, "Schema), ", e.name,
       "NullableFilterSchema]))\n    ),\n  \x7d)\n);\n"]

/-- The `EnumNameNullableListFilterSchema` block appended when the enum
has a list usage. -/
def enumListFilterFragment (e : DatamodelEnum) : String :=
  cat ["\nexport const ", e.name,
       "NullableListFilterSchema: v.GenericSchema<Prisma.Enum", e.name,
       "NullableListFilter> = v.object(\x7b\n  equals: v.optional(v.array(",
       e.name, "Schema)),\n  has: v.optional(", e.name,
       "Schema),\n  hasSome: v.optional(v.array(", e.name,
       "Schema)),\n  hasEvery: v.optional(v.array(", e.name,
       "Schema)),\n  isEmpty: v.optional(v.boolean()),\n\x7d);\n"]

/-- The `EnumNameWithAggregatesFilterSchema` block, also guarded by the
required usage. -/
def enumWithAggregatesFragment (e : DatamodelEnum) : String :=
  cat ["\nexport const ", e.name,
       "WithAggregatesFilterSchema: v.GenericSchema<Prisma.Enum", e.name,
       "WithAggregatesFilter> = v.lazy(() =>\n  v.object(\x7b\n    equals: v.optional(",
       e.name, "Schema),\n    in: v.optional(v.array(", e.name,
       "Schema)),\n    notIn: v.optional(v.array(", e.name,
       "Schema)),\n    not: v.optional(\n      v.lazy(() => v.union([",
       e.name, "Schema, ", e.name,
       "WithAggregatesFilterSchema]))\n    ),\n    _count: v.optional(IntFilterSchema),\n    _min: v.optional(",
       e.name, "FilterSchema),\n    _max: v.optional(", e.name,
       "FilterSchema),\n  \x7d)\n);\n"]

/-- The `EnumNameNullableWithAggregatesFilterSchema` block, also
guarded by the nullable usage. -/
def enumNullableWithAggregatesFragment (e : DatamodelEnum) : String :=
  cat ["\nexport const ", e.name,
       "NullableWithAggregatesFilterSchema: v.GenericSchema<Prisma.Enum",
       e.name,
       "NullableWithAggregatesFilter> = v.lazy(() =>\n  v.object(\x7b\n    equals: v.optional(v.nullable(",
       e.name, "Schema)),\n    in: v.optional(v.nullable(v.array(",
       e.name, "Schema))),\n    notIn: v.optional(v.nullable(v.array(",
       e.name,
       "Schema))),\n    not: v.optional(\n      v.lazy(() => v.union([v.nullable(",
       e.name, "Schema), ", e.name,
       "NullableWithAggregatesFilterSchema]))\n    ),\n    _count: v.optional(IntFilterSchema),\n    _min: v.optional(",
       e.name, "NullableFilterSchema),\n    _max: v.optional(", e.name,
       "NullableFilterSchema),\n  \x7d)\n);\n"]

/-- The sequence of blocks appended to `result` by
`generateEnumFilterSchema`, in source order, each under its usage
guard. -/
def enumFilterFragments (e : DatamodelEnum) (models : List Model) : List String :=
  (if enumHasRequiredUsage e models then [enumRequiredFilterFragment e] else []) ++
  (if enumHasNullableUsage e models then [enumNullableFilterFragment e] else []) ++
  (if enumHasListUsage e models then [enumListFilterFragment e] else []) ++
  (if enumHasRequiredUsage e models then [enumWithAggregatesFragment e] else []) ++
  (if enumHasNullableUsage e models then [enumNullableWithAggregatesFragment e] else [])

/-- `generateEnumFilterSchema` of `src/builders/enum-schema.ts`: the
concatenation of the guarded blocks. -/
def generateEnumFilterSchema (e : DatamodelEnum) (models : List Model) : String :=
  cat (enumFilterFragments e models)

/-! ### Select and Include builders (`src/builders/select-include.ts`) -/

/-- The line pushed onto `schemaFields` for one field by
`generateSelectSchema`. -/
def selectFieldLine (field : Field) : String :=
  match field.kind with
  | .object =>
    if field.isList then
      cat ["  ", field.name, ": v.optional(v.union([v.boolean(), v.lazy(() => ",
           field.type, "FindManyArgsSchema)])),"]
    else
      cat ["  ", field.name, ": v.optional(v.union([v.boolean(), v.lazy(() => ",
           field.type, "ArgsSchema)])),"]
  | _ => cat ["  ", field.name, ": v.optional(v.boolean()),"]

/-- Whether the model owns at least one list relation field (the
`hasListRelations` test of `generateSelectSchema` and
`generateIncludeSchema`). -/
def hasListRelations (model : Model) : Bool :=
  model.fields.any fun f => f.kind = .object && f.isList

/-- The `_count` line appended when the model owns a list relation. -/
def countSelectionLine (model : Model) : String :=
  cat ["  _count: v.optional(v.union([v.boolean(), v.lazy(() => ",
       model.name, "CountOutputTypeDefaultArgsSchema)])),"]

/-- The full `schemaFields` sequence of `generateSelectSchema`. -/
def selectSchemaFields (model : Model) : List String :=
  model.fields.map selectFieldLine ++
  (if hasListRelations model then [countSelectionLine model] else [])

/-- `generateSelectSchema` of `src/builders/select-include.ts`. -/
def generateSelectSchema (model : Model) : String :=
  cat ["export const ", model.name, "SelectSchema: v.GenericSchema<Prisma.",
       model.name, "Select> = v.lazy(() => v.object(\x7b\n",
       joinJs "\n" (selectSchemaFields model), "\n\x7d));\n"]

/-- The `schemaFields` sequence of `generateIncludeSchema` (one line
per relation field, then the `_count` line when the model owns a list
relation). -/
def includeSchemaFields (model : Model) : List String :=
  (model.fields.filter fun f => f.kind = .object).map selectFieldLine ++
  (if hasListRelations model then [countSelectionLine model] else [])

/-- `generateIncludeSchema` of `src/builders/select-include.ts`:
`v.never()` when the model has no relation fields, otherwise an object
schema over `includeSchemaFields`. -/
def generateIncludeSchema (model : Model) : String :=
  if (model.fields.filter fun f => f.kind = .object) = [] then
    cat ["export const ", model.name, "IncludeSchema = v.never();"]
  else
    cat ["export const ", model.name,
         "IncludeSchema: v.GenericSchema<Prisma.", model.name,
         "Include> = v.lazy(() => v.object(\x7b\n",
         joinJs "\n" (includeSchemaFields model), "\n\x7d));\n"]

/-! ### WhereUniqueInput builder (`src/builders/where-unique.ts`) -/

/-- The `typeMap` of `getScalarType` in `src/builders/where-unique.ts`,
with its `|| 'v.any()'` fallback. -/
def getScalarType (type : String) : String :=
  if type = "String" then "v.string()"
  else if type = "Int" then "v.number()"
  else if type = "BigInt" then "v.bigint()"
  else if type = "Float" then "v.number()"
  else if type = "Decimal" then "v.number()"
  else if type = "Boolean" then "v.boolean()"
  else if type = "DateTime" then "v.pipe(v.string(), v.isoDateTime())"
  else if type = "Json" then "v.any()"
  else if type = "Bytes" then "v.instance(Buffer)"
  else "v.any()"

/-- The `uniqueConstraints` array of `generateWhereUniqueInputSchema`:
one object-shape string per single unique or id scalar/enum field,
followed by one per compound unique index with more than one field. -/
def uniqueConstraints (model : Model) : List String :=
  (model.fields.filterMap fun field =>
    if field.isId || field.isUnique then
      match field.kind with
      | .scalar | .enum =>
        let fieldType :=
          if field.kind = .enum then cat ["v.picklist(", field.type, "Enum)"]
          else getScalarType field.type
        some (cat ["v.object(\x7b ", field.name, ": ", fieldType, " \x7d)"])
      | _ => none
    else none) ++
  (model.uniqueIndexes.filterMap fun index =>
    if index.fields.length > 1 then
      let compoundName := joinJs "_" index.fields
      let compoundFields := index.fields.filterMap fun fieldName =>
        match model.fields.find? fun f => f.name == fieldName with
        | none => none
        | some field =>
          let fieldType :=
            if field.kind = .enum then cat ["v.picklist(", field.type, "Enum)"]
            else getScalarType field.type
          some (cat [fieldName, ": ", fieldType])
      some (cat ["v.object(\x7b ", compoundName, ": v.object(\x7b ",
                 joinJs ", " compoundFields, " \x7d) \x7d)"])
    else none)

/-- `generateWhereUniqueInputSchema` of
`src/builders/where-unique.ts`: a single constraint is used directly,
otherwise the constraints become the arms of a `v.union`. -/
def generateWhereUniqueInputSchema (model : Model) : String :=
  match uniqueConstraints model with
  | [c] =>
    cat ["export const ", model.name,
         "WhereUniqueInputSchema: v.GenericSchema<Prisma.", model.name,
         "WhereUniqueInput> = ", c, ";\n"]
  | _ =>
    cat ["export const ", model.name,
         "WhereUniqueInputSchema: v.GenericSchema<Prisma.", model.name,
         "WhereUniqueInput> = v.union([\n  ",
         joinJs ",\n  " (uniqueConstraints model), "\n]);\n"]

/-! ### OrderBy builder (`src/builders/orderby-input.ts`) -/

/-- The line pushed for one field by `generateOrderBySchema`
(`none` for unsupported fields, which the loop skips). -/
def orderByFieldLine (field : Field) : Option String :=
  match field.kind with
  | .scalar | .enum =>
    if field.isRequired then
      some (cat ["  ", field.name, ": v.optional(SortOrderSchema),"])
    else
      some (cat ["  ", field.name,
                 ": v.optional(v.union([SortOrderSchema, SortOrderInputSchema])),"])
  | .object =>
    if field.isList then
      some (cat ["  ", field.name, ": v.optional(v.lazy(() => ", field.type,
                 "OrderByRelationAggregateInputSchema)),"])
    else
      some (cat ["  ", field.name, ": v.optional(v.lazy(() => ", field.type,
                 "OrderByInputSchema)),"])
  | .unsupported => none

/-- `generateOrderBySchema` of `src/builders/orderby-input.ts`. -/
def generateOrderBySchema (model : Model) : String :=
  cat ["export const ", model.name,
       "OrderByInputSchema: v.GenericSchema<Prisma.", model.name,
       "OrderByWithRelationInput> = v.lazy(() => v.object(\x7b\n",
       joinJs "\n" (model.fields.filterMap orderByFieldLine), "\n\x7d));\n"]

/-- `generateOrderByRelationAggregateSchema` of
`src/builders/orderby-input.ts`. -/
def generateOrderByRelationAggregateSchema (model : Model) : String :=
  cat ["export const ", model.name,
       "OrderByRelationAggregateInputSchema: v.GenericSchema<Prisma.",
       model.name,
       "OrderByRelationAggregateInput> = v.object(\x7b\n  _count: v.optional(SortOrderSchema),\n\x7d);\n"]

/-! ### Create input builders (`src/builders/create-args.ts`) -/

/-- `findReverseRelationFieldName` of `src/builders/create-args.ts`:
look up the related model; filter its relation fields back to the
current model with the same relation name, excluding the field with the
current field's own name; with several candidates prefer one whose
list-ness matches, otherwise the first; with none fall back to the
current model's name. -/
def findReverseRelationFieldName (currentModel : Model) (field : Field)
    (allModels : List Model) : String :=
  match allModels.find? fun m => m.name == field.type with
  | none => currentModel.name
  | some relatedModel =>
    let candidateFields := relatedModel.fields.filter fun f =>
      f.kind = .object && f.type == currentModel.name &&
      f.relationName == field.relationName && f.name != field.name
    if candidateFields.length > 1 then
      match candidateFields.find? fun f => f.isList == field.isList with
      | some matching => matching.name
      | none =>
        match candidateFields with
        | c :: _ => c.name
        | [] => currentModel.name
    else
      match candidateFields with
      | c :: _ => c.name
      | [] => currentModel.name

/-- The `isRelationForeignKey` test inside `generateCreateInputSchema`:
some relation field of the model lists this field name among its
`relationFromFields`. -/
def isRelationForeignKey (model : Model) (field : Field) : Bool :=
  model.fields.any fun f =>
    f.kind = .object &&
      (match f.relationFromFields with
       | some l => l.contains field.name
       | none => false)

/-- The scalar/enum field line shared by the create-input builders:
enum fields use picklists, others the type mapper; nullable fields with
no default get `v.nullable`, and `wrapOptional` keys on
`isRequired && !hasDefaultValue`. -/
def createScalarFieldLine (field : Field) : String :=
  let valibotType :=
    if field.kind = .enum then
      if field.isList then cat ["v.array(v.picklist(", field.type, "Enum))"]
      else cat ["v.picklist(", field.type, "Enum)"]
    else getValibotType field.type field.isList
  let valibotType :=
    if !field.isRequired && !field.hasDefaultValue then
      cat ["v.nullable(", valibotType, ")"]
    else valibotType
  cat ["  ", field.name, ": ",
       wrapOptional valibotType (field.isRequired && !field.hasDefaultValue),
       ","]

/-- The line pushed (or skipped) for one field by the loop of
`generateCreateInputSchema`: relation fields reference context-specific
nested inputs (required single relations are not wrapped in
`v.optional`), and scalar fields backing a relation's foreign key are
skipped. -/
def createInputFieldLine (model : Model) (allModels : List Model)
    (field : Field) : Option String :=
  match field.kind with
  | .object =>
    let reverseFieldCapitalized :=
      capitalize (findReverseRelationFieldName model field allModels)
    if field.isList then
      some (cat ["  ", field.name, ": v.optional(v.lazy(() => ", field.type,
                 "CreateNestedManyWithout", reverseFieldCapitalized,
                 "InputSchema)),"])
    else
      let nestedSchema := cat ["v.lazy(() => ", field.type,
                               "CreateNestedOneWithout",
                               reverseFieldCapitalized, "InputSchema)"]
      let wrappedSchema :=
        if field.isRequired then nestedSchema
        else cat ["v.optional(", nestedSchema, ")"]
      some (cat ["  ", field.name, ": ", wrappedSchema, ","])
  | _ =>
    if isRelationForeignKey model field then none
    else some (createScalarFieldLine field)

/-- `generateCreateInputSchema` of `src/builders/create-args.ts`. -/
def generateCreateInputSchema (model : Model) (allModels : List Model) : String :=
  cat ["export const ", model.name,
       "CreateInputSchema: v.GenericSchema<Prisma.", model.name,
       "CreateInput> = v.object(\x7b\n",
       joinJs "\n" (model.fields.filterMap (createInputFieldLine model allModels)),
       "\n\x7d);\n"]

/-- The line pushed (or skipped) for one field by the loop of
`generateUncheckedCreateInputSchema`: single relations are dropped,
list relations reference unchecked nested inputs, and every scalar or
enum field (foreign keys included) is kept. -/
def uncheckedCreateInputFieldLine (model : Model) (allModels : List Model)
    (field : Field) : Option String :=
  match field.kind with
  | .object =>
    if field.isList then
      let reverseFieldCapitalized :=
        capitalize (findReverseRelationFieldName model field allModels)
      some (cat ["  ", field.name, ": v.optional(v.lazy(() => ", field.type,
                 "UncheckedCreateNestedManyWithout", reverseFieldCapitalized,
                 "InputSchema)),"])
    else none
  | _ => some (createScalarFieldLine field)

/-- `generateUncheckedCreateInputSchema` of
`src/builders/create-args.ts`. -/
def generateUncheckedCreateInputSchema (model : Model)
    (allModels : List Model) : String :=
  cat ["export const ", model.name,
       "UncheckedCreateInputSchema: v.GenericSchema<Prisma.", model.name,
       "UncheckedCreateInput> = v.object(\x7b\n",
       joinJs "\n"
         (model.fields.filterMap (uncheckedCreateInputFieldLine model allModels)),
       "\n\x7d);\n"]

/-! ### Update input builder (`src/builders/update-args.ts`) -/

/-- The line pushed for one field by the loop of
`generateUpdateInputSchema`: every field, relation or scalar, is
wrapped in `v.optional`. -/
def updateInputFieldLine (field : Field) : String :=
  match field.kind with
  | .object =>
    if field.isList then
      cat ["  ", field.name, ": v.optional(v.lazy(() => ", field.type,
           "UpdateManyNestedInputSchema)),"]
    else
      cat ["  ", field.name, ": v.optional(v.lazy(() => ", field.type,
           "UpdateOneNestedInputSchema)),"]
  | _ =>
    let valibotType :=
      if field.kind = .enum then cat ["v.picklist(", field.type, "Enum)"]
      else getValibotType field.type field.isList
    cat ["  ", field.name, ": v.optional(", valibotType, "),"]

/-- `generateUpdateInputSchema` of `src/builders/update-args.ts`. -/
def generateUpdateInputSchema (model : Model) : String :=
  cat ["export const ", model.name,
       "UpdateInputSchema: v.GenericSchema = v.lazy(() => v.object(\x7b\n",
       joinJs "\n" (model.fields.map updateInputFieldLine), "\n\x7d));\n"]

/-! ### Query args builders (`src/builders/query-args.ts`) -/

/-- `generateFindManyArgsSchema` of `src/builders/query-args.ts`; note
the orderBy union places the object schema before the array schema. -/
def generateFindManyArgsSchema (model : Model) : String :=
  cat ["export const ", model.name,
       "FindManyArgsSchema: v.GenericSchema<Prisma.", model.name,
       "FindManyArgs> = v.lazy(() => v.object(\x7b\n  select: v.optional(",
       model.name, "SelectSchema),\n  include: v.optional(", model.name,
       "IncludeSchema),\n  where: v.optional(", model.name,
       "WhereInputSchema),\n  orderBy: v.optional(v.union([", model.name,
       "OrderByInputSchema, v.array(", model.name,
       "OrderByInputSchema)])),\n  cursor: v.optional(", model.name,
       "WhereUniqueInputSchema),\n  take: v.optional(v.number()),\n  skip: v.optional(v.number()),\n  distinct: v.optional(v.array(v.picklist(Object.keys(",
       model.name,
       "ScalarFieldEnum) as [string, ...string[]]))),\n\x7d));\n"]

/-- `generateFindFirstArgsSchema` of `src/builders/query-args.ts`; its
orderBy union likewise places the object schema first. -/
def generateFindFirstArgsSchema (model : Model) : String :=
  cat ["export const ", model.name,
       "FindFirstArgsSchema: v.GenericSchema<Prisma.", model.name,
       "FindFirstArgs> = v.lazy(() => v.object(\x7b\n  select: v.optional(",
       model.name, "SelectSchema),\n  include: v.optional(", model.name,
       "IncludeSchema),\n  where: v.optional(", model.name,
       "WhereInputSchema),\n  orderBy: v.optional(v.union([", model.name,
       "OrderByInputSchema, v.array(", model.name,
       "OrderByInputSchema)])),\n  cursor: v.optional(", model.name,
       "WhereUniqueInputSchema),\n  take: v.optional(v.number()),\n  skip: v.optional(v.number()),\n  distinct: v.optional(v.array(v.picklist(Object.keys(",
       model.name,
       "ScalarFieldEnum) as [string, ...string[]]))),\n\x7d));\n"]

/-! ### Orchestrator conditionals (`src/lib/generate-schemas.ts`) -/

/-- Membership in the `modelsUsedAsListRelations` set computed by
`generateSchemas`: the name is the target type of some list relation
field somewhere in the graph. -/
def isListRelationTarget (models : List Model) (name : String) : Bool :=
  models.any fun m => m.fields.any fun f =>
    f.kind = .object && f.isList && f.type == name

/-- The pieces appended to `indexContent` for one model by the second
pass of `generateSchemas` (where/orderBy/select/include), with the
list-relation-filter and order-by-relation-aggregate fragments guarded
by membership in the list-relation-target set. -/
def secondPassFragments (model : Model) (models : List Model) : List String :=
  [cat ["\n// ", model.name, " Where & OrderBy\n"],
   generateWhereUniqueInputSchema model,
   generateWhereInputSchema model] ++
  (if isListRelationTarget models model.name then
    [generateListRelationFilterSchema model]
   else []) ++
  [generateOrderBySchema model] ++
  (if isListRelationTarget models model.name then
    [generateOrderByRelationAggregateSchema model]
   else []) ++
  [generateSelectSchema model, generateIncludeSchema model]

/-! ### Concrete example graphs used as inputs for witnesses and
counterexamples -/

/-- Example model `User`: id, unique email, nullable name, a list
relation `posts : Post[]` and a nullable single relation
`profile : Profile?`. -/
def userModel : Model where
  name := "User"
  fields :=
    [{ name := "id", kind := .scalar, type := "Int", isRequired := true,
       isList := false, isId := true, hasDefaultValue := true },
     { name := "email", kind := .scalar, type := "String",
       isRequired := true, isList := false, isUnique := true },
     { name := "name", kind := .scalar, type := "String",
       isRequired := false, isList := false },
     { name := "posts", kind := .object, type := "Post",
       isRequired := false, isList := true,
       relationName := some "PostToUser" },
     { name := "profile", kind := .object, type := "Profile",
       isRequired := false, isList := false,
       relationName := some "ProfileToUser" }]

/-- Example model `Post`: a required single relation `author : User`
backed by the foreign key `authorId`. -/
def postModel : Model where
  name := "Post"
  fields :=
    [{ name := "id", kind := .scalar, type := "Int", isRequired := true,
       isList := false, isId := true, hasDefaultValue := true },
     { name := "title", kind := .scalar, type := "String",
       isRequired := true, isList := false },
     { name := "authorId", kind := .scalar, type := "Int",
       isRequired := true, isList := false },
     { name := "author", kind := .object, type := "User",
       isRequired := true, isList := false,
       relationName := some "PostToUser",
       relationFromFields := some ["authorId"] }]

/-- Example model `Profile`: a required single relation back to `User`
backed by `userId`. -/
def profileModel : Model where
  name := "Profile"
  fields :=
    [{ name := "id", kind := .scalar, type := "Int", isRequired := true,
       isList := false, isId := true, hasDefaultValue := true },
     { name := "userId", kind := .scalar, type := "Int",
       isRequired := true, isList := false, isUnique := true },
     { name := "user", kind := .object, type := "User",
       isRequired := true, isList := false,
       relationName := some "ProfileToUser",
       relationFromFields := some ["userId"] }]

/-- The example graph. -/
def exampleModels : List Model := [userModel, postModel, profileModel]

/-- Example model with a single Int field: no String usage anywhere,
and exactly one unique constraint. -/
def itemModel : Model where
  name := "Item"
  fields :=
    [{ name := "id", kind := .scalar, type := "Int", isRequired := true,
       isList := false, isId := true, hasDefaultValue := true }]

/-- Example enum `Status`, used only as a required field of
`taskModel`. -/
def statusEnum : DatamodelEnum where
  name := "Status"
  values := ["ACTIVE", "ARCHIVED"]

/-- Example model using `Status` on a required enum field. -/
def taskModel : Model where
  name := "Task"
  fields :=
    [{ name := "id", kind := .scalar, type := "Int", isRequired := true,
       isList := false, isId := true, hasDefaultValue := true },
     { name := "status", kind := .enum, type := "Status",
       isRequired := true, isList := false }]

/-! ### Proof helpers for reasoning about emitted strings -/

theorem cat_cons (x : String) (xs : List String) : cat (x :: xs) = x ++ cat xs := rfl

theorem ne_of_data_ne {s t : String} (h : s.data ≠ t.data) : s ≠ t :=
  fun e => h (congrArg String.data e)

theorem append_ne_append_left {a b ra rb : String} (k : Nat)
    (hka : k < a.data.length) (hkb : k < b.data.length)
    (hne : a.data[k]? ≠ b.data[k]?) : a ++ ra ≠ b ++ rb := by
  intro e
  have h := congrArg String.data e
  simp only [String.data_append] at h
  have h2 := congrArg (fun l => l[k]?) h
  simp only [List.getElem?_append, hka, hkb, if_pos] at h2
  exact hne h2

theorem cat_head_ne {a b : String} {ra rb : List String} (k : Nat)
    (hka : k < a.data.length) (hkb : k < b.data.length)
    (hne : a.data[k]? ≠ b.data[k]?) : cat (a :: ra) ≠ cat (b :: rb) := by
  rw [cat_cons, cat_cons]
  exact append_ne_append_left k hka hkb hne

theorem cat_cancel {x : String} {ra rb : List String}
    (h : cat (x :: ra) = cat (x :: rb)) : cat ra = cat rb := by
  rw [cat_cons, cat_cons] at h
  have h2 := congrArg String.data h
  simp only [String.data_append] at h2
  exact String.ext (List.append_cancel_left h2)

theorem ne_of_length_ne {s t : String} (h : s.data.length ≠ t.data.length) :
    s ≠ t := fun e => h (congrArg (fun u => u.data.length) e)

theorem cat3_length (a x b : String) :
    (cat [a, x, b]).data.length =
      a.data.length + x.data.length + b.data.length := by
  simp [cat, String.data_append, Nat.add_assoc]

theorem data_cat_nil : (cat []).data = [] := rfl

theorem data_cat_cons (x : String) (xs : List String) :
    (cat (x :: xs)).data = x.data ++ (cat xs).data := by
  rw [cat_cons]
  exact String.data_append x (cat xs)

theorem ne_of_getElem_ne {s t : String} (k : Nat)
    (h : s.data[k]? ≠ t.data[k]?) : s ≠ t :=
  fun e => h (congrArg (fun u => u.data[k]?) e)

theorem list_ne_cancel0 {a b ra rb : List Char} (k : Nat)
    (hka : k < a.length) (hkb : k < b.length) (hne : a[k]? ≠ b[k]?) :
    ¬ (a ++ ra = b ++ rb) := by
  intro h
  have h2 := congrArg (fun l => l[k]?) h
  simp only [List.getElem?_append, hka, hkb, if_pos] at h2
  exact hne h2

theorem list_ne_cancel2 {p q a b ra rb : List Char} (k : Nat)
    (hka : k < a.length) (hkb : k < b.length) (hne : a[k]? ≠ b[k]?) :
    ¬ (p ++ (q ++ (a ++ ra)) = p ++ (q ++ (b ++ rb))) := by
  intro h
  exact list_ne_cancel0 k hka hkb hne
    (List.append_cancel_left (List.append_cancel_left h))

theorem str_split_append (a b c x : String) (h : a = b ++ c) :
    a ++ x = b ++ (c ++ x) := by
  rw [h, String.append_assoc]

/-! ### Distinctness of the enum filter fragments

The five blocks of `generateEnumFilterSchema` are pairwise distinct for
every enum name: the required-filter block is the only one that does
not begin with a newline, and the remaining blocks diverge at a
concrete character position after the shared
`"\nexport const " ++ e.name` prefix. -/

theorem enum_fr_ne_fn (e : DatamodelEnum) :
    enumRequiredFilterFragment e ≠ enumNullableFilterFragment e := by
  intro h
  have hd := congrArg String.data h
  simp only [enumRequiredFilterFragment, enumNullableFilterFragment,
    data_cat_cons, data_cat_nil, List.append_assoc, List.append_nil] at hd
  exact list_ne_cancel0 0 (by decide) (by decide) (by decide) hd

theorem enum_fr_ne_fl (e : DatamodelEnum) :
    enumRequiredFilterFragment e ≠ enumListFilterFragment e := by
  intro h
  have hd := congrArg String.data h
  simp only [enumRequiredFilterFragment, enumListFilterFragment,
    data_cat_cons, data_cat_nil, List.append_assoc, List.append_nil] at hd
  exact list_ne_cancel0 0 (by decide) (by decide) (by decide) hd

theorem enum_fr_ne_fwa (e : DatamodelEnum) :
    enumRequiredFilterFragment e ≠ enumWithAggregatesFragment e := by
  intro h
  have hd := congrArg String.data h
  simp only [enumRequiredFilterFragment, enumWithAggregatesFragment,
    data_cat_cons, data_cat_nil, List.append_assoc, List.append_nil] at hd
  exact list_ne_cancel0 0 (by decide) (by decide) (by decide) hd

theorem enum_fr_ne_fnwa (e : DatamodelEnum) :
    enumRequiredFilterFragment e ≠ enumNullableWithAggregatesFragment e := by
  intro h
  have hd := congrArg String.data h
  simp only [enumRequiredFilterFragment, enumNullableWithAggregatesFragment,
    data_cat_cons, data_cat_nil, List.append_assoc, List.append_nil] at hd
  exact list_ne_cancel0 0 (by decide) (by decide) (by decide) hd

theorem enum_fn_ne_fl (e : DatamodelEnum) :
    enumNullableFilterFragment e ≠ enumListFilterFragment e := by
  intro h
  have hd := congrArg String.data h
  simp only [enumNullableFilterFragment, enumListFilterFragment,
    data_cat_cons, data_cat_nil, List.append_assoc, List.append_nil] at hd
  exact list_ne_cancel2 8 (by decide) (by decide) (by decide) hd

theorem enum_fn_ne_fwa (e : DatamodelEnum) :
    enumNullableFilterFragment e ≠ enumWithAggregatesFragment e := by
  intro h
  have hd := congrArg String.data h
  simp only [enumNullableFilterFragment, enumWithAggregatesFragment,
    data_cat_cons, data_cat_nil, List.append_assoc, List.append_nil] at hd
  exact list_ne_cancel2 0 (by decide) (by decide) (by decide) hd

theorem enum_fn_ne_fnwa (e : DatamodelEnum) :
    enumNullableFilterFragment e ≠ enumNullableWithAggregatesFragment e := by
  intro h
  have hd := congrArg String.data h
  simp only [enumNullableFilterFragment, enumNullableWithAggregatesFragment,
    data_cat_cons, data_cat_nil, List.append_assoc, List.append_nil] at hd
  exact list_ne_cancel2 8 (by decide) (by decide) (by decide) hd

theorem enum_fl_ne_fwa (e : DatamodelEnum) :
    enumListFilterFragment e ≠ enumWithAggregatesFragment e := by
  intro h
  have hd := congrArg String.data h
  simp only [enumListFilterFragment, enumWithAggregatesFragment,
    data_cat_cons, data_cat_nil, List.append_assoc, List.append_nil] at hd
  exact list_ne_cancel2 0 (by decide) (by decide) (by decide) hd

theorem enum_fl_ne_fnwa (e : DatamodelEnum) :
    enumListFilterFragment e ≠ enumNullableWithAggregatesFragment e := by
  intro h
  have hd := congrArg String.data h
  simp only [enumListFilterFragment, enumNullableWithAggregatesFragment,
    data_cat_cons, data_cat_nil, List.append_assoc, List.append_nil] at hd
  exact list_ne_cancel2 8 (by decide) (by decide) (by decide) hd

theorem enum_fragments_mem_iff (e : DatamodelEnum) (models : List Model) :
    (enumRequiredFilterFragment e ∈ enumFilterFragments e models ↔
      enumHasRequiredUsage e models = true) ∧
    (enumNullableFilterFragment e ∈ enumFilterFragments e models ↔
      enumHasNullableUsage e models = true) ∧
    (enumListFilterFragment e ∈ enumFilterFragments e models ↔
      enumHasListUsage e models = true) := by
  cases hr : enumHasRequiredUsage e models <;>
    cases hn : enumHasNullableUsage e models <;>
      cases hl : enumHasListUsage e models <;>
        simp [enumFilterFragments, hr, hn, hl,
          enum_fr_ne_fn e, enum_fr_ne_fl e, enum_fr_ne_fwa e,
          enum_fr_ne_fnwa e, enum_fn_ne_fl e, enum_fn_ne_fwa e,
          enum_fn_ne_fnwa e, enum_fl_ne_fwa e, enum_fl_ne_fnwa e,
          (enum_fr_ne_fn e).symm, (enum_fr_ne_fl e).symm,
          (enum_fn_ne_fl e).symm]

/-! ### Shapes of the second-pass fragments

Every fragment appended by the second orchestration pass begins with
`"export const " ++ model.name` followed by a schema-kind suffix (or
with the pass comment line, which begins with a newline); the suffixes
diverge at concrete character positions, so the conditionally emitted
fragments can be told apart from the unconditional ones. -/

theorem whereUnique_head_shape (m : Model) : ∃ rest : List String,
    generateWhereUniqueInputSchema m =
      cat ("export const " :: m.name ::
        "WhereUniqueInputSchema: v.GenericSchema<Prisma." :: rest) := by
  rcases h : uniqueConstraints m with _ | ⟨c, _ | ⟨d, cs⟩⟩ <;>
    simp only [generateWhereUniqueInputSchema, h] <;> exact ⟨_, rfl⟩

theorem include_head_shape (m : Model) : ∃ rest : List String,
    generateIncludeSchema m =
      cat ("export const " :: m.name :: "IncludeSchema" :: rest) := by
  unfold generateIncludeSchema
  by_cases h : (m.fields.filter fun f => f.kind = .object) = []
  · rw [if_pos h]
    refine ⟨[" = v.never();"], ?_⟩
    simp only [cat]
    exact congrArg (fun z => "export const " ++ z)
      (congrArg (fun z => m.name ++ z)
        (str_split_append _ _ _ _ (by decide)))
  · rw [if_neg h]
    refine ⟨": v.GenericSchema<Prisma." :: m.name ::
      "Include> = v.lazy(() => v.object(\x7b\n" ::
      joinJs "\n" (includeSchemaFields m) :: "\n\x7d));\n" :: [], ?_⟩
    simp only [cat]
    exact congrArg (fun z => "export const " ++ z)
      (congrArg (fun z => m.name ++ z)
        (str_split_append _ _ _ _ (by decide)))

theorem secondPass_target_fragments_iff (m : Model) (models : List Model) :
    (generateListRelationFilterSchema m ∈ secondPassFragments m models ↔
      isListRelationTarget models m.name = true) ∧
    (generateOrderByRelationAggregateSchema m ∈ secondPassFragments m models ↔
      isListRelationTarget models m.name = true) := by
  obtain ⟨wuRest, hwu⟩ := whereUnique_head_shape m
  obtain ⟨incRest, hinc⟩ := include_head_shape m
  cases ht : isListRelationTarget models m.name
  · constructor
    · refine iff_of_false ?_ (by simp)
      intro hmem
      simp only [secondPassFragments, ht, Bool.false_eq_true, if_false,
        List.append_nil, List.nil_append, List.cons_append, List.mem_cons,
        List.not_mem_nil, or_false] at hmem
      rw [hwu, hinc] at hmem
      rcases hmem with h | h | h | h | h | h
      · exact absurd h (cat_head_ne 0 (by decide) (by decide) (by decide))
      · exact absurd (cat_cancel (cat_cancel h))
          (cat_head_ne 0 (by decide) (by decide) (by decide))
      · exact absurd (cat_cancel (cat_cancel h))
          (cat_head_ne 0 (by decide) (by decide) (by decide))
      · exact absurd (cat_cancel (cat_cancel h))
          (cat_head_ne 0 (by decide) (by decide) (by decide))
      · exact absurd (cat_cancel (cat_cancel h))
          (cat_head_ne 0 (by decide) (by decide) (by decide))
      · exact absurd (cat_cancel (cat_cancel h))
          (cat_head_ne 0 (by decide) (by decide) (by decide))
    · refine iff_of_false ?_ (by simp)
      intro hmem
      simp only [secondPassFragments, ht, Bool.false_eq_true, if_false,
        List.append_nil, List.nil_append, List.cons_append, List.mem_cons,
        List.not_mem_nil, or_false] at hmem
      rw [hwu, hinc] at hmem
      rcases hmem with h | h | h | h | h | h
      · exact absurd h (cat_head_ne 0 (by decide) (by decide) (by decide))
      · exact absurd (cat_cancel (cat_cancel h))
          (cat_head_ne 0 (by decide) (by decide) (by decide))
      · exact absurd (cat_cancel (cat_cancel h))
          (cat_head_ne 0 (by decide) (by decide) (by decide))
      · exact absurd (cat_cancel (cat_cancel h))
          (cat_head_ne 7 (by decide) (by decide) (by decide))
      · exact absurd (cat_cancel (cat_cancel h))
          (cat_head_ne 0 (by decide) (by decide) (by decide))
      · exact absurd (cat_cancel (cat_cancel h))
          (cat_head_ne 0 (by decide) (by decide) (by decide))
  · constructor <;> simp [secondPassFragments, ht]

/-! ### The relation-count selection entry

The `_count` entry of the select (and include) field list is present
exactly when the model owns a list relation; with field names that do
not begin with an underscore (as Prisma guarantees), no per-field entry
can coincide with it, since every per-field entry has either the
field's first name character or a colon at string index 2, while the
`_count` entry has an underscore there. -/

theorem select_line_third_char (n b : String) (rest : List String)
    (hn : n.data[0]? ≠ some '_') (hb : b.data[0]? = some ':') :
    (cat ("  " :: n :: b :: rest)).data[2]? ≠ some '_' := by
  simp only [data_cat_cons]
  rcases hnd : n.data with _ | ⟨c, cs⟩
  · rcases hbd : b.data with _ | ⟨c2, cs2⟩
    · rw [hbd] at hb
      simp at hb
    · have hc2 : c2 = ':' := by
        rw [hbd] at hb
        simpa using hb
      subst hc2
      simp
  · rw [hnd] at hn
    have : (("  ").data ++ ((c :: cs) ++ (b.data ++ (cat rest).data)))[2]? =
        some c := by
      simp
    rw [this]
    simpa using hn

theorem countLine_third_char (m : Model) :
    (countSelectionLine m).data[2]? = some '_' := by
  simp only [countSelectionLine, data_cat_cons, data_cat_nil, List.append_nil]
  simp

theorem count_selection_mem_iff (m : Model)
    (hname : ∀ f ∈ m.fields, f.name.data[0]? ≠ some '_') :
    countSelectionLine m ∈ selectSchemaFields m ↔ hasListRelations m = true := by
  cases hl : hasListRelations m
  · refine iff_of_false ?_ (by simp)
    intro hmem
    simp only [selectSchemaFields, hl, Bool.false_eq_true, if_false,
      List.append_nil] at hmem
    obtain ⟨g, hg, heq⟩ := List.mem_map.mp hmem
    refine ne_of_getElem_ne 2 ?_ heq
    rw [countLine_third_char m]
    have hgn := hname g hg
    rcases hk : g.kind <;> simp only [selectFieldLine, hk]
    · exact select_line_third_char _ _ _ hgn (by decide)
    · exact select_line_third_char _ _ _ hgn (by decide)
    · cases g.isList <;>
        simp only [Bool.false_eq_true, if_false, if_true] <;>
        exact select_line_third_char _ _ _ hgn (by decide)
    · exact select_line_third_char _ _ _ hgn (by decide)
  · simp [selectSchemaFields, hl]

/-! ## Claim theorems -/

set_option maxRecDepth 40000

/-- C1: the claim demands the array arm before the object arm in every
array-or-object union, including the orderBy fields of the
find-many/find-first argument schemas. On the `User` example model the
code emits the WhereInput logical AND and NOT unions array-first as
claimed, but both find-args orderBy unions place the object schema
`UserOrderByInputSchema` before `v.array(UserOrderByInputSchema)`, and
the array-first orderBy union the claim requires appears nowhere in the
find-many output — contradicting both the claim and the source's own
comment that the array schema must come first in such unions. -/
theorem findMany_orderBy_object_arm_first :
    containsSubstr (generateFindManyArgsSchema userModel)
      "orderBy: v.optional(v.union([UserOrderByInputSchema, v.array(UserOrderByInputSchema)]))," = true ∧
    containsSubstr (generateFindFirstArgsSchema userModel)
      "orderBy: v.optional(v.union([UserOrderByInputSchema, v.array(UserOrderByInputSchema)]))," = true ∧
    containsSubstr (generateFindManyArgsSchema userModel)
      "v.union([v.array(UserOrderByInputSchema)" = false ∧
    containsSubstr (generateWhereInputSchema userModel)
      "AND: v.optional(v.lazy(() => v.union([v.array(UserWhereInputSchema), UserWhereInputSchema])))," = true ∧
    containsSubstr (generateWhereInputSchema userModel)
      "NOT: v.optional(v.lazy(() => v.union([v.array(UserWhereInputSchema), UserWhereInputSchema])))," = true := by
  decide

/-- C2 counterexample: the claim makes the relation-count selection
sub-schema conditional on the model being a list-relation target, but
on the example graph the `_count` entry is emitted for `User`, which is
not the target of any list relation (it merely owns one). -/
theorem count_selection_not_target_counterexample :
    ¬ ((countSelectionLine userModel ∈ selectSchemaFields userModel) ↔
       isListRelationTarget exampleModels userModel.name = true) := by
  decide

/-- C2 (amended): an enum's required-filter fragment is emitted iff the
enum is used by some required enum field, its nullable-filter fragment
iff used by some non-required enum field, and its list-filter fragment
iff used by some list enum field; the list-relation filter and the
list-relation sort-aggregate fragments are emitted for a model iff that
model is the target of at least one list-valued relation field in the
graph; but the relation-count selection entry is emitted for a model
iff that model itself owns at least one list relation field (not iff it
is a list-relation target). Field names are assumed not to begin with
an underscore, as Prisma guarantees. -/
theorem conditional_emission_iff (e : DatamodelEnum) (models : List Model)
    (m : Model) (hname : ∀ f ∈ m.fields, f.name.data[0]? ≠ some '_') :
    (enumRequiredFilterFragment e ∈ enumFilterFragments e models ↔
      enumHasRequiredUsage e models = true) ∧
    (enumNullableFilterFragment e ∈ enumFilterFragments e models ↔
      enumHasNullableUsage e models = true) ∧
    (enumListFilterFragment e ∈ enumFilterFragments e models ↔
      enumHasListUsage e models = true) ∧
    (generateListRelationFilterSchema m ∈ secondPassFragments m models ↔
      isListRelationTarget models m.name = true) ∧
    (generateOrderByRelationAggregateSchema m ∈ secondPassFragments m models ↔
      isListRelationTarget models m.name = true) ∧
    (countSelectionLine m ∈ selectSchemaFields m ↔
      hasListRelations m = true) := by
  obtain ⟨h1, h2, h3⟩ := enum_fragments_mem_iff e models
  obtain ⟨h4, h5⟩ := secondPass_target_fragments_iff m models
  exact ⟨h1, h2, h3, h4, h5, count_selection_mem_iff m hname⟩

/-- C2 witness: the amended conditional-emission theorem applied to the
example graph, where `Status` is used only as a required field and
`User` owns a list relation. -/
theorem conditional_emission_iff_witness :
    (enumRequiredFilterFragment statusEnum ∈
        enumFilterFragments statusEnum [taskModel] ↔
      enumHasRequiredUsage statusEnum [taskModel] = true) ∧
    (countSelectionLine userModel ∈ selectSchemaFields userModel ↔
      hasListRelations userModel = true) :=
  ⟨(conditional_emission_iff statusEnum [taskModel] userModel (by decide)).1,
   (conditional_emission_iff statusEnum [taskModel] userModel
      (by decide)).2.2.2.2.2⟩

/-- C3 counterexample: the claim says every scalar filter schema is
emitted for every input graph, but for a graph whose only model has a
single Int field the scalar-filter builder emits nothing at all — not
even the Int filter for the type that is actually used — because the
entire block is guarded by a String-usage test. -/
theorem scalarFilters_skipped_counterexample :
    generateScalarFilterSchemas [itemModel] = "" ∧
    containsSubstr (generateScalarFilterSchemas [itemModel])
      "IntFilterSchema" = false := by
  constructor
  · rfl
  · rfl

/-- C3 (amended): scalar-filter emission is all-or-nothing and
conditional only on String usage: when some model uses the String
scalar type on a required or nullable field, the single fixed block
containing every scalar filter (with locally defined type shapes) is
emitted regardless of which other scalar types are used; otherwise
nothing is emitted. -/
theorem scalarFilters_conditional_on_String (models : List Model) :
    ((isTypeUsed models "String" false false
        || isTypeUsed models "String" true false) = true →
      generateScalarFilterSchemas models = scalarFilterBlock) ∧
    ((isTypeUsed models "String" false false
        || isTypeUsed models "String" true false) = false →
      generateScalarFilterSchemas models = "") := by
  constructor
  · intro h
    simp [generateScalarFilterSchemas, h, joinJs]
  · intro h
    simp [generateScalarFilterSchemas, h, joinJs]

/-- C3 witness: the conditional scalar-filter theorem applied to a
graph with a String field and to one without. -/
theorem scalarFilters_conditional_witness :
    generateScalarFilterSchemas [userModel] = scalarFilterBlock ∧
    generateScalarFilterSchemas [itemModel] = "" :=
  ⟨(scalarFilters_conditional_on_String [userModel]).1 (by decide),
   (scalarFilters_conditional_on_String [itemModel]).2 (by decide)⟩

/-- C4: in a model's WhereInput schema, a required single relation
field emits exactly the two-armed union of a `v.strictObject` wrapper
with optional is/isNot keys followed by the bare nested WhereInput
shorthand, and its lines never include the `v.null()` arm; a nullable
single relation field emits the union whose first arm (list position 1,
right after the opening line) is `v.null()`, before the strict wrapper
(position 2) and the shorthand (position 6). -/
theorem whereInput_relation_xor (f : Field) (hk : f.kind = .object)
    (hl : f.isList = false) :
    (f.isRequired = true →
      whereInputFieldLines f =
        [cat ["  ", f.name, ": v.optional(v.lazy(() => v.union(["],
         "    v.strictObject(\x7b",
         cat ["      is: v.optional(", f.type, "WhereInputSchema),"],
         cat ["      isNot: v.optional(", f.type, "WhereInputSchema),"],
         "    \x7d),",
         cat ["    ", f.type, "WhereInputSchema"],
         "  ]))),"] ∧
      "    v.null()," ∉ whereInputFieldLines f) ∧
    (f.isRequired = false →
      whereInputFieldLines f =
        [cat ["  ", f.name, ": v.optional(v.lazy(() => v.union(["],
         "    v.null(),",
         "    v.strictObject(\x7b",
         cat ["      is: v.optional(v.nullable(", f.type,
              "WhereInputSchema)),"],
         cat ["      isNot: v.optional(v.nullable(", f.type,
              "WhereInputSchema)),"],
         "    \x7d),",
         cat ["    ", f.type, "WhereInputSchema"],
         "  ]))),"] ∧
      (whereInputFieldLines f)[1]? = some "    v.null()," ∧
      (whereInputFieldLines f)[2]? = some "    v.strictObject(\x7b" ∧
      (whereInputFieldLines f)[6]? =
        some (cat ["    ", f.type, "WhereInputSchema"])) := by
  have hnotcat : ∀ a x b : String,
      ("    v.null(),").data.length < a.data.length + b.data.length →
      "    v.null()," ≠ cat [a, x, b] := by
    intro a x b hab
    apply ne_of_length_ne
    rw [cat3_length]
    omega
  constructor
  · intro hr
    have heq : whereInputFieldLines f =
        [cat ["  ", f.name, ": v.optional(v.lazy(() => v.union(["],
         "    v.strictObject(\x7b",
         cat ["      is: v.optional(", f.type, "WhereInputSchema),"],
         cat ["      isNot: v.optional(", f.type, "WhereInputSchema),"],
         "    \x7d),",
         cat ["    ", f.type, "WhereInputSchema"],
         "  ]))),"] := by
      simp [whereInputFieldLines, hk, hl, hr]
    refine ⟨heq, ?_⟩
    rw [heq]
    intro hmem
    simp only [List.mem_cons, List.not_mem_nil, or_false] at hmem
    rcases hmem with h | h | h | h | h | h | h
    · exact absurd h (hnotcat _ _ _ (by decide))
    · exact absurd h (by decide)
    · exact absurd h (hnotcat _ _ _ (by decide))
    · exact absurd h (hnotcat _ _ _ (by decide))
    · exact absurd h (by decide)
    · exact absurd h (hnotcat _ _ _ (by decide))
    · exact absurd h (by decide)
  · intro hr
    have heq : whereInputFieldLines f =
        [cat ["  ", f.name, ": v.optional(v.lazy(() => v.union(["],
         "    v.null(),",
         "    v.strictObject(\x7b",
         cat ["      is: v.optional(v.nullable(", f.type,
              "WhereInputSchema)),"],
         cat ["      isNot: v.optional(v.nullable(", f.type,
              "WhereInputSchema)),"],
         "    \x7d),",
         cat ["    ", f.type, "WhereInputSchema"],
         "  ]))),"] := by
      simp [whereInputFieldLines, hk, hl, hr]
    exact ⟨heq, by rw [heq]; rfl, by rw [heq]; rfl, by rw [heq]; rfl⟩

/-- C4 witness: the relation XOR theorem applied to the required
relation `Post.author` and the nullable relation `User.profile`. -/
theorem whereInput_relation_xor_witness :
    whereInputFieldLines
      { name := "author", kind := .object, type := "User",
        isRequired := true, isList := false,
        relationName := some "PostToUser",
        relationFromFields := some ["authorId"] } =
      ["  author: v.optional(v.lazy(() => v.union([",
       "    v.strictObject(\x7b",
       "      is: v.optional(UserWhereInputSchema),",
       "      isNot: v.optional(UserWhereInputSchema),",
       "    \x7d),",
       "    UserWhereInputSchema",
       "  ]))),"] ∧
    (whereInputFieldLines
      { name := "profile", kind := .object, type := "Profile",
        isRequired := false, isList := false,
        relationName := some "ProfileToUser" })[1]? = some "    v.null()," := by
  have h1 := (whereInput_relation_xor
    { name := "author", kind := .object, type := "User",
      isRequired := true, isList := false,
      relationName := some "PostToUser",
      relationFromFields := some ["authorId"] } rfl rfl).1 rfl
  have h2 := (whereInput_relation_xor
    { name := "profile", kind := .object, type := "Profile",
      isRequired := false, isList := false,
      relationName := some "ProfileToUser" } rfl rfl).2 rfl
  exact ⟨by rw [h1.1]; decide, h2.2.1⟩

/-- C5: a required single-valued relation field's create-nested-one
embedding in the CreateInput schema is emitted without a `v.optional`
wrapper (the line is exactly the bare `v.lazy` reference), while the
same field in the UpdateInput schema is wrapped in `v.optional`. -/
theorem createInput_required_relation_unwrapped (m : Model)
    (ms : List Model) (f : Field) (hk : f.kind = .object)
    (hl : f.isList = false) (hr : f.isRequired = true) :
    createInputFieldLine m ms f =
      some (cat ["  ", f.name, ": ",
                 cat ["v.lazy(() => ", f.type, "CreateNestedOneWithout",
                      capitalize (findReverseRelationFieldName m f ms),
                      "InputSchema)"], ","]) ∧
    updateInputFieldLine f =
      cat ["  ", f.name, ": v.optional(v.lazy(() => ", f.type,
           "UpdateOneNestedInputSchema)),"] := by
  constructor
  · simp [createInputFieldLine, hk, hl, hr]
  · simp [updateInputFieldLine, hk, hl]

/-- C5 witness: the create/update wrapping theorem applied to the
required relation `Post.author` of the example graph. -/
theorem createInput_required_relation_witness :
    createInputFieldLine postModel exampleModels
      { name := "author", kind := .object, type := "User",
        isRequired := true, isList := false,
        relationName := some "PostToUser",
        relationFromFields := some ["authorId"] } =
      some "  author: v.lazy(() => UserCreateNestedOneWithoutPostsInputSchema)," ∧
    updateInputFieldLine
      { name := "author", kind := .object, type := "User",
        isRequired := true, isList := false,
        relationName := some "PostToUser",
        relationFromFields := some ["authorId"] } =
      "  author: v.optional(v.lazy(() => UserUpdateOneNestedInputSchema))," := by
  have h := createInput_required_relation_unwrapped postModel exampleModels
    { name := "author", kind := .object, type := "User",
      isRequired := true, isList := false,
      relationName := some "PostToUser",
      relationFromFields := some ["authorId"] } rfl rfl rfl
  exact ⟨by rw [h.1]; decide, by rw [h.2]; decide⟩

/-- C6: a scalar field listed among some relation's foreign-key storage
fields is omitted from the checked CreateInput field list but included
in the UncheckedCreateInput field list; the unchecked variant drops
singular relation fields entirely and keeps list relation fields. -/
theorem foreignKey_suppression (m : Model) (ms : List Model) (f : Field)
    (hk : f.kind = .scalar) (hfk : isRelationForeignKey m f = true) :
    createInputFieldLine m ms f = none ∧
    uncheckedCreateInputFieldLine m ms f = some (createScalarFieldLine f) ∧
    (∀ g : Field, g.kind = .object →
      ((uncheckedCreateInputFieldLine m ms g).isSome ↔ g.isList = true)) := by
  refine ⟨?_, ?_, ?_⟩
  · simp [createInputFieldLine, hk, hfk]
  · simp [uncheckedCreateInputFieldLine, hk]
  · intro g hg
    cases hgl : g.isList <;> simp [uncheckedCreateInputFieldLine, hg, hgl]

/-- C6 witness: the foreign-key suppression theorem applied to
`Post.authorId`, the storage field of the `Post.author` relation. -/
theorem foreignKey_suppression_witness :
    createInputFieldLine postModel exampleModels
      { name := "authorId", kind := .scalar, type := "Int",
        isRequired := true, isList := false } = none ∧
    uncheckedCreateInputFieldLine postModel exampleModels
      { name := "authorId", kind := .scalar, type := "Int",
        isRequired := true, isList := false } =
      some (createScalarFieldLine
        { name := "authorId", kind := .scalar, type := "Int",
          isRequired := true, isList := false }) ∧
    (∀ g : Field, g.kind = .object →
      ((uncheckedCreateInputFieldLine postModel exampleModels g).isSome ↔
        g.isList = true)) :=
  foreignKey_suppression postModel exampleModels _ rfl (by decide)

/-- C7: a model whose unique-or-id constraints number exactly one gets
that single constraint's object shape directly, with no union wrapper;
a model with two or more such constraints gets a `v.union` whose arms
are exactly the individual constraint object shapes. -/
theorem whereUnique_single_vs_union :
    (∀ (m : Model) (c : String), uniqueConstraints m = [c] →
      generateWhereUniqueInputSchema m =
        cat ["export const ", m.name,
             "WhereUniqueInputSchema: v.GenericSchema<Prisma.", m.name,
             "WhereUniqueInput> = ", c, ";\n"]) ∧
    (∀ (m : Model) (c₁ c₂ : String) (cs : List String),
      uniqueConstraints m = c₁ :: c₂ :: cs →
      generateWhereUniqueInputSchema m =
        cat ["export const ", m.name,
             "WhereUniqueInputSchema: v.GenericSchema<Prisma.", m.name,
             "WhereUniqueInput> = v.union([\n  ",
             joinJs ",\n  " (c₁ :: c₂ :: cs), "\n]);\n"]) := by
  constructor
  · intro m c h
    simp [generateWhereUniqueInputSchema, h]
  · intro m c₁ c₂ cs h
    simp [generateWhereUniqueInputSchema, h]

/-- C7 witness: the unique-lookup arity theorem applied to `Item` (one
id constraint, direct shape) and to `User` (id plus unique email, a
two-armed union). -/
theorem whereUnique_arity_witness :
    generateWhereUniqueInputSchema itemModel =
      cat ["export const ", itemModel.name,
           "WhereUniqueInputSchema: v.GenericSchema<Prisma.",
           itemModel.name, "WhereUniqueInput> = ",
           "v.object(\x7b id: v.number() \x7d)", ";\n"] ∧
    generateWhereUniqueInputSchema userModel =
      cat ["export const ", userModel.name,
           "WhereUniqueInputSchema: v.GenericSchema<Prisma.",
           userModel.name, "WhereUniqueInput> = v.union([\n  ",
           joinJs ",\n  " ["v.object(\x7b id: v.number() \x7d)",
                           "v.object(\x7b email: v.string() \x7d)"],
           "\n]);\n"] :=
  ⟨whereUnique_single_vs_union.1 itemModel _ (by decide),
   whereUnique_single_vs_union.2 userModel _ _ [] (by decide)⟩

/-- Stated from the claim's wording for C8: on the related model, the
candidate reverse fields are those relation fields with the same
relation-name tag and target type, excluding the field whose name
equals the current field's name; with no candidate the owning model's
name is used; with exactly one candidate it is taken; with several, a
candidate with matching list-ness is preferred, otherwise the first
declared one. -/
def reverseRelationFieldSpec (currentModel : Model) (field : Field)
    (relatedModel : Model) : String :=
  let candidates := relatedModel.fields.filter fun f =>
    f.kind = .object && f.type == currentModel.name &&
    f.relationName == field.relationName && f.name != field.name
  match candidates with
  | [] => currentModel.name
  | [c] => c.name
  | c :: _ :: _ =>
    match candidates.find? fun f => f.isList == field.isList with
    | some matching => matching.name
    | none => c.name

/-- C8: whenever the related model named by the field's type exists in
the graph, `findReverseRelationFieldName` computes exactly the
reverse-field name described by the claim: same relation-name tag and
target type, exclusion by field name, list-ness preference among
several candidates with first-declared fallback, and the owning model's
name when no candidate exists. -/
theorem findReverseRelationFieldName_spec (cm : Model) (f : Field)
    (ms : List Model) (rm : Model)
    (h : ms.find? (fun m => m.name == f.type) = some rm) :
    findReverseRelationFieldName cm f ms = reverseRelationFieldSpec cm f rm := by
  unfold findReverseRelationFieldName reverseRelationFieldSpec
  rw [h]
  rcases hc : rm.fields.filter
      (fun g => g.kind = .object && g.type == cm.name &&
        g.relationName == f.relationName && g.name != f.name)
    with _ | ⟨c, _ | ⟨d, tl⟩⟩ <;> simp [hc]

/-- C8 witness: the reverse-field theorem applied to the `Post.author`
edge of the example graph, whose related model `User` is found in the
model list. -/
theorem findReverseRelationFieldName_spec_witness :
    findReverseRelationFieldName postModel
      { name := "author", kind := .object, type := "User",
        isRequired := true, isList := false,
        relationName := some "PostToUser",
        relationFromFields := some ["authorId"] } exampleModels
      = reverseRelationFieldSpec postModel
          { name := "author", kind := .object, type := "User",
            isRequired := true, isList := false,
            relationName := some "PostToUser",
            relationFromFields := some ["authorId"] } userModel :=
  findReverseRelationFieldName_spec postModel _ exampleModels userModel
    (by decide)

/-- C9: the type mapper is total and never produces the empty
expression; a non-list DateTime maps to the union of an ISO string and
a native Date; a DateTime list maps to the union of an ISO-string list
and a Date list (the dual representation distributed over the list);
every other tag gets uniform `v.array` wrapping; unknown tags fall back
to the accept-anything expression. -/
theorem getValibotType_characterization :
    getValibotType "DateTime" false =
      "v.union([v.pipe(v.string(), v.isoTimestamp()), v.date()])" ∧
    getValibotType "DateTime" true =
      "v.union([v.array(v.pipe(v.string(), v.isoTimestamp())), v.array(v.date())])" ∧
    (∀ t : String, t ≠ "DateTime" →
      getValibotType t true = "v.array(" ++ getValibotType t false ++ ")") ∧
    (∀ t : String,
      t ∉ (["String", "Int", "BigInt", "Float", "Decimal", "Boolean",
            "DateTime", "Json", "Bytes"] : List String) →
      getValibotType t false = "v.any()" ∧
      getValibotType t true = "v.array(v.any())") ∧
    (∀ (t : String) (b : Bool), getValibotType t b ≠ "") := by
  refine ⟨by decide, by decide, ?_, ?_, ?_⟩
  · intro t ht
    simp [getValibotType, ht]
  · intro t ht
    simp only [List.mem_cons, List.not_mem_nil, or_false, not_or] at ht
    obtain ⟨h1, h2, h3, h4, h5, h6, h7, h8, h9⟩ := ht
    simp [getValibotType, getBaseValibotType, h1, h2, h3, h4, h5, h6, h7,
      h8, h9]
  · intro t b
    have hbase : ∀ u : String, getBaseValibotType u ≠ "" := by
      intro u
      unfold getBaseValibotType
      split_ifs <;> decide
    cases b with
    | false =>
      simp only [getValibotType, and_false, if_false]
      simpa using hbase t
    | true =>
      by_cases hdt : t = "DateTime"
      · simp [getValibotType, hdt]
      · simp only [getValibotType, hdt, false_and, if_false]
        intro h
        have := congrArg String.data h
        simp [String.data_append] at this

/-- C9 witness: the type-mapper theorem applied to the known tag `Int`
and the unknown tag `Unsupported`. -/
theorem getValibotType_witness :
    getValibotType "Int" true = "v.array(" ++ getValibotType "Int" false ++ ")" ∧
    getValibotType "Unsupported" false = "v.any()" ∧
    getValibotType "Unsupported" true = "v.array(v.any())" ∧
    getValibotType "Json" true ≠ "" :=
  ⟨getValibotType_characterization.2.2.1 "Int" (by decide),
   (getValibotType_characterization.2.2.2.1 "Unsupported" (by decide)).1,
   (getValibotType_characterization.2.2.2.1 "Unsupported" (by decide)).2,
   getValibotType_characterization.2.2.2.2 "Json" true⟩

/-- C10: a model with no relation fields gets `v.never()` as its
Include schema rather than an empty object schema; a model with at
least one relation field gets an object schema whose field list has one
optional entry per relation field, each produced by the per-field line
builder (plus the `_count` entry exactly when the model owns a list
relation). -/
theorem include_never_or_per_relation_entry :
    (∀ m : Model, (m.fields.filter fun f => f.kind = .object) = [] →
      generateIncludeSchema m =
        cat ["export const ", m.name, "IncludeSchema = v.never();"]) ∧
    (∀ (m : Model) (rf : Field) (rfs : List Field),
      (m.fields.filter fun f => f.kind = .object) = rf :: rfs →
      generateIncludeSchema m =
        cat ["export const ", m.name,
             "IncludeSchema: v.GenericSchema<Prisma.", m.name,
             "Include> = v.lazy(() => v.object(\x7b\n",
             joinJs "\n" (includeSchemaFields m), "\n\x7d));\n"] ∧
      includeSchemaFields m =
        (rf :: rfs).map selectFieldLine ++
          (if hasListRelations m then [countSelectionLine m] else []) ∧
      ∀ g ∈ rf :: rfs, selectFieldLine g ∈ includeSchemaFields m) := by
  constructor
  · intro m h
    simp [generateIncludeSchema, h]
  · intro m rf rfs h
    refine ⟨by simp [generateIncludeSchema, h],
      by simp [includeSchemaFields, h], ?_⟩
    intro g hg
    simp only [includeSchemaFields, h]
    exact List.mem_append_left _ (List.mem_map_of_mem _ hg)

/-- C10 witness: the Include-schema theorem applied to `Item` (no
relations, `v.never()`) and `User` (two relation fields). -/
theorem include_schema_witness :
    generateIncludeSchema itemModel =
      cat ["export const ", itemModel.name, "IncludeSchema = v.never();"] ∧
    generateIncludeSchema userModel =
      cat ["export const ", userModel.name,
           "IncludeSchema: v.GenericSchema<Prisma.", userModel.name,
           "Include> = v.lazy(() => v.object(\x7b\n",
           joinJs "\n" (includeSchemaFields userModel), "\n\x7d));\n"] :=
  ⟨include_never_or_per_relation_entry.1 itemModel (by decide),
   ((include_never_or_per_relation_entry.2 userModel
      { name := "posts", kind := .object, type := "Post",
        isRequired := false, isList := true,
        relationName := some "PostToUser" }
      [{ name := "profile", kind := .object, type := "Profile",
         isRequired := false, isList := false,
         relationName := some "ProfileToUser" }] (by decide)).1)⟩

end PVG
